import Mathlib

/-!
Verification development for the GitCloud provisioning orchestrator
(`gitcloud/provider/tencent/tencent.py`, `gitcloud/provider/tencent/network.py`,
`cleanup.py`).

The Python code is shallowly embedded: every provider API call is an oracle
(a function argument or a structure field giving the call result), Python
exceptions are the explicit `PyErr` sum, file writes are trace events, and
time is discrete (each status poll is instantaneous and each sleep advances
the clock by the fixed 10 second interval).
-/

namespace GitCloud

/-- A raised Python exception: either a `TencentCloudSDKException` (the only
class the provider adapter code catches selectively) with its `str(e)`
rendering, or any other exception with its message. -/
inductive PyErr where
  | sdk (msg : String)
  | other (msg : String)
deriving DecidableEq

/-- `str(e)` of a raised exception, as used by the substring tests. -/
def strOfErr : PyErr → String
  | .sdk m => m
  | .other m => m

instance instDecEqExcept {ε α : Type} [DecidableEq ε] [DecidableEq α] :
    DecidableEq (Except ε α) := fun x y =>
  match x, y with
  | .error a, .error b =>
    if h : a = b then isTrue (by subst h; rfl) else isFalse (by simp [h])
  | .ok a, .ok b =>
    if h : a = b then isTrue (by subst h; rfl) else isFalse (by simp [h])
  | .error _, .ok _ => isFalse (by simp)
  | .ok _, .error _ => isFalse (by simp)

/-- Python list/string containment scaffolding: `needle in hay` on char lists. -/
def pyInL (needle : List Char) : List Char → Bool
  | [] => needle.isEmpty
  | c :: t => needle.isPrefixOf (c :: t) || pyInL needle t

/-- Python `needle in hay` for strings. -/
def pyIn (needle hay : String) : Bool :=
  pyInL needle.data hay.data

/-- tencent.py line 539: a CVM creation failure advances to the next zone iff
it is an SDK exception whose text contains ResourceInsufficient or InvalidZone. -/
def cvmZoneRetryable : PyErr → Bool
  | .sdk m => pyIn "ResourceInsufficient" m || pyIn "InvalidZone" m
  | .other _ => false

/-- tencent.py line 1026: a MySQL creation failure advances to the next zone iff
it is an SDK exception whose text contains TradeError or the sold-out marker. -/
def mysqlZoneRetryable : PyErr → Bool
  | .sdk m => pyIn "TradeError" m || pyIn "售罄" m
  | .other _ => false

/-- tencent.py lines 394-418, `_get_instance_type`: the GPU class table. -/
def gpuMap : List (String × String) :=
  [("T4", "GN7.2XLARGE32"), ("V100", "GN8.4XLARGE64"),
   ("A10", "GN7.5XLARGE80"), ("A100", "GN7.20XLARGE320")]

/-- Python `str.upper()` (all strings involved are ASCII). -/
def pyUpper (s : String) : String :=
  String.mk (s.data.map Char.toUpper)

/-- tencent.py lines 406-418: the CPU-only ladder of `_get_instance_type`. -/
def getInstanceTypeCpu (cpuCores memoryGb : Int) : String × Bool :=
  if cpuCores ≤ 2 ∧ memoryGb ≤ 4 then ("S5.MEDIUM4", false)
  else if cpuCores ≤ 2 ∧ memoryGb ≤ 8 then ("S5.LARGE8", false)
  else if cpuCores ≤ 4 ∧ memoryGb ≤ 16 then ("S5.2XLARGE16", false)
  else if cpuCores ≤ 8 ∧ memoryGb ≤ 32 then ("S5.4XLARGE32", false)
  else if cpuCores ≤ 16 ∧ memoryGb ≤ 64 then ("S5.8XLARGE64", false)
  else ("S5.16XLARGE128", false)

/-- tencent.py lines 394-418, `_get_instance_type`: maps cpu/memory/gpu to a
Tencent instance type.  A set, non-empty gpu type other than a spelling of
NONE selects from the GPU table (unknown tier falls back to the smallest GPU
tier); otherwise the CPU ladder applies. -/
def getInstanceType (cpuCores memoryGb : Int) (gpuType : Option String) : String × Bool :=
  match gpuType with
  | some g =>
    if g != "" && pyUpper g != "NONE" then
      ((gpuMap.lookup (pyUpper g)).getD "GN7.2XLARGE32", true)
    else getInstanceTypeCpu cpuCores memoryGb
  | none => getInstanceTypeCpu cpuCores memoryGb

/-- The fixed CPU ladder, smallest tier first. -/
def cpuLadder : List String :=
  ["S5.MEDIUM4", "S5.LARGE8", "S5.2XLARGE16", "S5.4XLARGE32",
   "S5.8XLARGE64", "S5.16XLARGE128"]

/-- Position of an instance class in the fixed CPU ladder. -/
def ladderIndex (s : String) : Nat :=
  cpuLadder.indexOf s

/-- tencent.py lines 1033-1046, `_get_mysql_memory`: the MySQL memory ladder. -/
def getMysqlMemory (cpuCores memoryMb : Int) : Int :=
  if cpuCores = 1 ∧ memoryMb ≤ 1000 then 1000
  else if cpuCores = 1 ∧ memoryMb ≤ 2000 then 2000
  else if cpuCores = 2 ∧ memoryMb ≤ 4000 then 4000
  else if cpuCores = 4 ∧ memoryMb ≤ 8000 then 8000
  else if cpuCores ≥ 8 then 16000
  else 4000

/-- The fields of the `RunInstances` request that the claims are about.  The
image id, the user-data boot script, the disk and billing settings are fixed
constants or plain pass-throughs in the source and are not modelled. -/
structure CvmRunReq where
  zone : String
  subnetId : Option String
  securityGroupId : Option String
  instanceType : String
deriving DecidableEq

/-- The request `_create_cvm_instance` builds for one zone (tencent.py lines
435-531): the subnet is `self.provisioned.subnets.get(zone)`, so it is `none`
for a zone that has no entry in the zone-to-subnet map. -/
def mkCvmReq (instanceType : String) (sgId : Option String)
    (subnets : List (String × String)) (zone : String) : CvmRunReq :=
  { zone := zone, subnetId := subnets.lookup zone,
    securityGroupId := sgId, instanceType := instanceType }

/-- tencent.py lines 420-544, `_create_cvm_instance`: try each zone in order;
a retryable SDK failure advances the loop, any other failure propagates, and
exhausting the list raises the all-zones failure.  Returns the attempted
requests alongside the result. -/
def createCvmInstance (run : CvmRunReq → Except PyErr String) (instanceType : String)
    (sgId : Option String) (subnets : List (String × String)) :
    List String → List CvmRunReq × Except PyErr String
  | [] => ([], .error (.other "Failed to create CVM instance in all zones"))
  | zone :: rest =>
    match run (mkCvmReq instanceType sgId subnets zone) with
    | .ok instanceId => ([mkCvmReq instanceType sgId subnets zone], .ok instanceId)
    | .error e =>
      if cvmZoneRetryable e then
        (mkCvmReq instanceType sgId subnets zone ::
           (createCvmInstance run instanceType sgId subnets rest).1,
         (createCvmInstance run instanceType sgId subnets rest).2)
      else ([mkCvmReq instanceType sgId subnets zone], .error e)

/-- Whether the loop of `_create_cvm_instance` stops at this zone: the attempt
either succeeds or fails non-retryably. -/
def cvmAttemptStops (run : CvmRunReq → Except PyErr String) (instanceType : String)
    (sgId : Option String) (subnets : List (String × String)) (zone : String) : Bool :=
  match run (mkCvmReq instanceType sgId subnets zone) with
  | .ok _ => true
  | .error e => !cvmZoneRetryable e

/-- The fields of the `CreateDBInstanceHour` request the claims are about. -/
structure MysqlReq where
  zone : String
  subnetId : String
deriving DecidableEq

/-- tencent.py lines 993-1031, the zone loop of `_create_mysql_instance`:
zones without a subnet entry are skipped, a retryable SDK failure advances
the loop, any other failure propagates, and exhausting the list raises the
all-zones failure.  Returns the attempted requests alongside the result. -/
def createMysqlInstance (run : MysqlReq → Except PyErr String)
    (subnets : List (String × String)) :
    List String → List MysqlReq × Except PyErr String
  | [] => ([], .error (.other "Failed to create MySQL instance in all zones"))
  | zone :: rest =>
    match subnets.lookup zone with
    | none => createMysqlInstance run subnets rest
    | some subnetId =>
      match run { zone := zone, subnetId := subnetId } with
      | .ok instanceId => ([{ zone := zone, subnetId := subnetId }], .ok instanceId)
      | .error e =>
        if mysqlZoneRetryable e then
          ({ zone := zone, subnetId := subnetId } ::
             (createMysqlInstance run subnets rest).1,
           (createMysqlInstance run subnets rest).2)
        else ([{ zone := zone, subnetId := subnetId }], .error e)

/-- Whether the loop of `_create_mysql_instance` stops at this eligible zone. -/
def mysqlAttemptStops (run : MysqlReq → Except PyErr String)
    (p : String × String) : Bool :=
  match run { zone := p.1, subnetId := p.2 } with
  | .ok _ => true
  | .error e => !mysqlZoneRetryable e

/-- The zones of the list that have a subnet entry, paired with their subnet. -/
def eligibleZones (subnets : List (String × String)) (zones : List String) :
    List (String × String) :=
  zones.filterMap fun z => (subnets.lookup z).map fun sn => (z, sn)

/-- C3: `_create_cvm_instance` tries zones in list order; a capacity-exhausted
or invalid-zone SDK error advances the loop, any other error propagates
immediately, a success returns that zone's instance id immediately, and when
every zone is exhausted the all-zones failure is raised.  Formally: the result
is the outcome of the attempt at the first zone where the loop stops, and the
no-zone-available error when no such zone exists. -/
theorem createCvmInstance_zone_fallback (run : CvmRunReq → Except PyErr String)
    (instanceType : String) (sgId : Option String)
    (subnets : List (String × String)) (zones : List String) :
    (createCvmInstance run instanceType sgId subnets zones).2 =
      match zones.find? (cvmAttemptStops run instanceType sgId subnets) with
      | some zone => run (mkCvmReq instanceType sgId subnets zone)
      | none => .error (.other "Failed to create CVM instance in all zones") := by
  induction zones with
  | nil => simp [createCvmInstance]
  | cons z zs ih =>
    cases hr : run (mkCvmReq instanceType sgId subnets z) with
    | error e =>
      cases hb : cvmZoneRetryable e with
      | false => simp [createCvmInstance, List.find?, cvmAttemptStops, hr, hb]
      | true => simp [createCvmInstance, List.find?, cvmAttemptStops, hr, hb, ih]
    | ok instanceId => simp [createCvmInstance, List.find?, cvmAttemptStops, hr]

/-- C7 amended: the zone loop of `_create_mysql_instance` skips zones without
a subnet entry, advances on an SDK error containing TradeError or the
sold-out marker, and stops (propagating the outcome) at the first eligible
zone whose attempt succeeds or fails with any other error; the all-zones
failure is raised when no eligible zone stops the loop. -/
theorem createMysqlInstance_zone_fallback (run : MysqlReq → Except PyErr String)
    (subnets : List (String × String)) (zones : List String) :
    (createMysqlInstance run subnets zones).2 =
      match (eligibleZones subnets zones).find? (mysqlAttemptStops run) with
      | some p => run { zone := p.1, subnetId := p.2 }
      | none => .error (.other "Failed to create MySQL instance in all zones") := by
  induction zones with
  | nil => simp [createMysqlInstance, eligibleZones]
  | cons z zs ih =>
    cases hl : subnets.lookup z with
    | none => simpa [createMysqlInstance, eligibleZones, List.filterMap_cons, hl] using ih
    | some sn =>
      cases hr : run { zone := z, subnetId := sn } with
      | error e =>
        cases hb : mysqlZoneRetryable e with
        | false =>
          simp [createMysqlInstance, eligibleZones, List.filterMap_cons, hl,
            List.find?, mysqlAttemptStops, hr, hb]
        | true =>
          simp [createMysqlInstance, eligibleZones, List.filterMap_cons, hl,
            List.find?, mysqlAttemptStops, hr, hb, ih]
      | ok instanceId =>
        simp [createMysqlInstance, eligibleZones, List.filterMap_cons, hl,
          List.find?, mysqlAttemptStops, hr]

/-- A probe provider for the C7 counterexample: zone z1 fails with the
compute-retryable ResourceInsufficient signature, zone z2 would succeed. -/
def mysqlRunInsufficientProbe : MysqlReq → Except PyErr String :=
  fun req => if req.zone = "z1" then .error (.sdk "ResourceInsufficient") else .ok "cdb-42"

/-- The subnet map used by the probe counterexamples. -/
def probeSubnets : List (String × String) := [("z1", "subnet-a"), ("z2", "subnet-b")]

/-- C7 counterexample: an SDK error with the ResourceInsufficient signature is
retryable under the compute classification, but the database loop aborts on it
immediately instead of advancing to the next zone, so the database loop does
not apply the same classification compute uses. -/
theorem mysql_retry_classification_differs :
    cvmZoneRetryable (.sdk "ResourceInsufficient") = true ∧
    mysqlZoneRetryable (.sdk "ResourceInsufficient") = false ∧
    (createMysqlInstance mysqlRunInsufficientProbe probeSubnets ["z1", "z2"]).2 =
      .error (.sdk "ResourceInsufficient") := by
  decide

/-- A probe provider for the C6 counterexample: every attempt succeeds. -/
def cvmRunAlwaysOk : CvmRunReq → Except PyErr String := fun _ => .ok "ins-0probe"

/-- C6 counterexample: zone z1 is absent from the zone-to-subnet map, yet
`_create_cvm_instance` still issues an instance-creation attempt for it (with
subnet none) and returns its result, instead of never attempting it. -/
theorem cvm_attempts_unmapped_zone :
    ([("z2", "subnet-b")] : List (String × String)).lookup "z1" = none ∧
    (createCvmInstance cvmRunAlwaysOk "S5.MEDIUM4" (some "sg-1")
        [("z2", "subnet-b")] ["z1"]).1 =
      [{ zone := "z1", subnetId := none, securityGroupId := some "sg-1",
         instanceType := "S5.MEDIUM4" }] ∧
    (createCvmInstance cvmRunAlwaysOk "S5.MEDIUM4" (some "sg-1")
        [("z2", "subnet-b")] ["z1"]).2 = .ok "ins-0probe" := by
  decide

/-- C6 amended: compute instance creation attempts every zone of the zone list
up to and including the first stopping zone, regardless of the zone-to-subnet
map; each compute request carries the map entry for its zone when present and
none otherwise; only database instance creation restricts its attempts to
zones present in the map. -/
theorem cvm_zone_map_amended (run : CvmRunReq → Except PyErr String)
    (run2 : MysqlReq → Except PyErr String) (instanceType : String)
    (sgId : Option String) (subnets : List (String × String)) (zones : List String) :
    (createCvmInstance run instanceType sgId subnets zones).1 =
      ((zones.takeWhile fun z => !cvmAttemptStops run instanceType sgId subnets z) ++
        (zones.dropWhile fun z => !cvmAttemptStops run instanceType sgId subnets z).take 1).map
        (mkCvmReq instanceType sgId subnets) ∧
    (∀ req ∈ (createCvmInstance run instanceType sgId subnets zones).1,
       req.subnetId = subnets.lookup req.zone) ∧
    (∀ req ∈ (createMysqlInstance run2 subnets zones).1,
       subnets.lookup req.zone = some req.subnetId) := by
  refine ⟨?_, ?_, ?_⟩
  · induction zones with
    | nil => simp [createCvmInstance]
    | cons z zs ih =>
      cases hr : run (mkCvmReq instanceType sgId subnets z) with
      | error e =>
        cases hb : cvmZoneRetryable e with
        | false =>
          simp [createCvmInstance, cvmAttemptStops, hr, hb,
            List.takeWhile_cons, List.dropWhile_cons]
        | true =>
          simp [createCvmInstance, cvmAttemptStops, hr, hb,
            List.takeWhile_cons, List.dropWhile_cons, ih]
      | ok instanceId =>
        simp [createCvmInstance, cvmAttemptStops, hr,
          List.takeWhile_cons, List.dropWhile_cons]
  · induction zones with
    | nil => simp [createCvmInstance]
    | cons z zs ih =>
      intro req hreq
      cases hr : run (mkCvmReq instanceType sgId subnets z) with
      | error e =>
        cases hb : cvmZoneRetryable e with
        | false =>
          simp [createCvmInstance, hr, hb] at hreq
          subst hreq; simp [mkCvmReq]
        | true =>
          simp [createCvmInstance, hr, hb] at hreq
          rcases hreq with hreq | hreq
          · subst hreq; simp [mkCvmReq]
          · exact ih req hreq
      | ok instanceId =>
        simp [createCvmInstance, hr] at hreq
        subst hreq; simp [mkCvmReq]
  · induction zones with
    | nil => simp [createMysqlInstance]
    | cons z zs ih =>
      intro req hreq
      cases hl : subnets.lookup z with
      | none =>
        simp [createMysqlInstance, hl] at hreq
        exact ih req hreq
      | some sn =>
        cases hr : run2 { zone := z, subnetId := sn } with
        | error e =>
          cases hb : mysqlZoneRetryable e with
          | false =>
            simp [createMysqlInstance, hl, hr, hb] at hreq
            subst hreq; simpa using hl
          | true =>
            simp [createMysqlInstance, hl, hr, hb] at hreq
            rcases hreq with hreq | hreq
            · subst hreq; simpa using hl
            · exact ih req hreq
        | ok instanceId =>
          simp [createMysqlInstance, hl, hr] at hreq
          subst hreq; simpa using hl

/-- C6 amended witness at the concrete probe input. -/
theorem cvm_zone_map_amended_witness :
    (createCvmInstance cvmRunAlwaysOk "S5.MEDIUM4" (some "sg-1")
        probeSubnets ["z0", "z1"]).1 =
      (((["z0", "z1"] : List String).takeWhile fun z =>
          !cvmAttemptStops cvmRunAlwaysOk "S5.MEDIUM4" (some "sg-1") probeSubnets z) ++
        (((["z0", "z1"] : List String).dropWhile fun z =>
          !cvmAttemptStops cvmRunAlwaysOk "S5.MEDIUM4" (some "sg-1") probeSubnets z).take 1)).map
        (mkCvmReq "S5.MEDIUM4" (some "sg-1") probeSubnets) ∧
    ({ zone := "z0", subnetId := none, securityGroupId := some "sg-1",
       instanceType := "S5.MEDIUM4" } : CvmRunReq).subnetId =
      probeSubnets.lookup "z0" := by
  constructor
  · exact (cvm_zone_map_amended cvmRunAlwaysOk mysqlRunInsufficientProbe
      "S5.MEDIUM4" (some "sg-1") probeSubnets ["z0", "z1"]).1
  · exact (cvm_zone_map_amended cvmRunAlwaysOk mysqlRunInsufficientProbe
      "S5.MEDIUM4" (some "sg-1") probeSubnets ["z0", "z1"]).2.1
      { zone := "z0", subnetId := none, securityGroupId := some "sg-1",
        instanceType := "S5.MEDIUM4" } (by decide)

/-- C9: the CPU-only instance-class mapping is monotone: a request dominating
another never maps to a smaller tier of the fixed CPU ladder, and a request
exceeding every tier ceiling maps to the largest tier. -/
theorem instanceType_monotone (c1 m1 c2 m2 : Int) (hc : c1 ≤ c2) (hm : m1 ≤ m2) :
    ladderIndex (getInstanceType c1 m1 none).1 ≤
      ladderIndex (getInstanceType c2 m2 none).1 ∧
    (¬(c2 ≤ 16 ∧ m2 ≤ 64) → (getInstanceType c2 m2 none).1 = "S5.16XLARGE128") := by
  constructor
  · simp only [getInstanceType, getInstanceTypeCpu]
    split_ifs <;> first | (exfalso; omega) | decide
  · intro h
    simp only [getInstanceType, getInstanceTypeCpu]
    split_ifs <;> first | (exfalso; omega) | rfl

/-- C9 witness at concrete dominated requests. -/
theorem instanceType_monotone_witness :
    ladderIndex (getInstanceType 2 4 none).1 ≤
      ladderIndex (getInstanceType 4 16 none).1 ∧
    (¬((4 : Int) ≤ 16 ∧ (16 : Int) ≤ 64) →
      (getInstanceType 4 16 none).1 = "S5.16XLARGE128") :=
  instanceType_monotone 2 4 4 16 (by decide) (by decide)

/-- tencent.py lines 118-135, the `ProvisionedResources` dataclass.  The
security-group list holds options because the security-group creators return
None on an SDK failure (network.py lines 154-156 and 203-205). -/
structure Resources where
  cvmInstanceId : Option String := none
  cvmPublicIp : Option String := none
  cvmPrivateIp : Option String := none
  sshPrivateKeyPath : Option String := none
  mysqlInstanceId : Option String := none
  mysqlHost : Option String := none
  mysqlPort : Option Int := none
  mysqlUsername : Option String := none
  mysqlPassword : Option String := none
  vpcId : Option String := none
  subnets : Option (List (String × String)) := none
  securityGroupIds : Option (List (Option String)) := none
  region : String := "ap-guangzhou"
deriving DecidableEq

/-- One delete call issued by `cleanup` (tencent.py lines 1100-1159). -/
inductive DelEvent where
  | terminateCvm (instanceId : String)
  | isolateMysql (instanceId : String)
  | deleteSg (sgId : Option String)
  | deleteSubnet (subnetId : String)
  | deleteVpc (vpcId : String)
deriving DecidableEq

/-- Outcomes of the delete calls `cleanup` issues.  The security-group,
subnet and VPC delete outcomes are not recorded here because their calls sit
in individual try/except blocks that discard any failure. -/
structure DeleteOracle where
  terminateCvm : String → Except PyErr Unit
  isolateMysql : String → Except PyErr Unit

/-- The delete calls of the individually wrapped tail of `cleanup`
(tencent.py lines 1121-1154): every security group, every subnet, then the
VPC, each attempted regardless of the previous outcomes because each call is
inside its own try/except-pass. -/
def cleanupRest (r : Resources) : List DelEvent :=
  (match r.securityGroupIds with
   | some l => l.map DelEvent.deleteSg
   | none => []) ++
  (match r.subnets with
   | some l => l.map fun p => DelEvent.deleteSubnet p.2
   | none => []) ++
  (match r.vpcId with
   | some v => [DelEvent.deleteVpc v]
   | none => [])

/-- The part of the cleanup body after the CVM terminate (tencent.py lines
1113-1154): the MySQL isolate, also unwrapped, then the wrapped tail. -/
def cleanupAfterCvm (d : DeleteOracle) (r : Resources) :
    List DelEvent × Except PyErr Unit :=
  match r.mysqlInstanceId with
  | some i =>
    match d.isolateMysql i with
    | .error e => ([DelEvent.isolateMysql i], .error e)
    | .ok _ => (DelEvent.isolateMysql i :: cleanupRest r, .ok ())
  | none => (cleanupRest r, .ok ())

/-- tencent.py lines 1104-1156, the body of the outer try of `cleanup`: the
CVM terminate and the MySQL isolate are not individually wrapped, so a
failure of either aborts the rest of the body (the outer except then swallows
it). -/
def cleanupBody (d : DeleteOracle) (r : Resources) :
    List DelEvent × Except PyErr Unit :=
  match r.cvmInstanceId with
  | some i =>
    match d.terminateCvm i with
    | .error e => ([DelEvent.terminateCvm i], .error e)
    | .ok _ =>
      (DelEvent.terminateCvm i :: (cleanupAfterCvm d r).1, (cleanupAfterCvm d r).2)
  | none => cleanupAfterCvm d r

/-- tencent.py lines 1100-1159, `cleanup`: the whole body sits in an outer
try whose except clause swallows any exception, so the function never raises
and its observable behaviour is the list of delete calls it issued. -/
def cleanup (d : DeleteOracle) (r : Resources) : List DelEvent :=
  (cleanupBody d r).1

/-- Every delete call the spec expects `cleanup` to attempt, in the fixed
order: compute, database, security groups, subnets, VPC. -/
def cleanupAllAttempts (r : Resources) : List DelEvent :=
  (match r.cvmInstanceId with
   | some i => [DelEvent.terminateCvm i]
   | none => []) ++
  (match r.mysqlInstanceId with
   | some i => [DelEvent.isolateMysql i]
   | none => []) ++
  cleanupRest r

/-- Whether the CVM terminate and MySQL isolate delete calls that `cleanup`
reaches all succeed. -/
def cleanupHeadOk (d : DeleteOracle) (r : Resources) : Bool :=
  (match r.cvmInstanceId with
   | some i => match d.terminateCvm i with | .ok _ => true | .error _ => false
   | none => true) &&
  (match r.mysqlInstanceId with
   | some i => match d.isolateMysql i with | .ok _ => true | .error _ => false
   | none => true)

/-- A delete oracle whose CVM terminate fails, for the C2 counterexample. -/
def badDeleteOracle : DeleteOracle :=
  { terminateCvm := fun _ => .error (.sdk "InvalidInstanceState"),
    isolateMysql := fun _ => .ok () }

/-- A delete oracle whose unwrapped deletes succeed. -/
def goodDeleteOracle : DeleteOracle :=
  { terminateCvm := fun _ => .ok (), isolateMysql := fun _ => .ok () }

/-- A partially provisioned record with a compute instance, a network, a
subnet and a security group, for the C2 counterexample and witness. -/
def partialResourcesProbe : Resources :=
  { cvmInstanceId := some "ins-1", vpcId := some "vpc-1",
    subnets := some [("z1", "subnet-a")], securityGroupIds := some [some "sg-1"] }

/-- C2 counterexample: when the compute terminate fails, `cleanup` stops after
that single delete call and never attempts the recorded VPC (nor subnet nor
security-group) deletes, so one failing delete does prevent the remaining
deletes. -/
theorem cleanup_abort_counterexample :
    partialResourcesProbe.vpcId = some "vpc-1" ∧
    cleanup badDeleteOracle partialResourcesProbe = [DelEvent.terminateCvm "ins-1"] ∧
    DelEvent.deleteVpc "vpc-1" ∉ cleanup badDeleteOracle partialResourcesProbe := by
  decide

/-- C2 amended: `cleanup` never raises (any failure of its body is swallowed
by the outer handler, so its observable behaviour is just its list of delete
calls), issues deletes in the fixed order compute instance, database isolate,
security groups, subnets, network, and always issues a prefix of the full
attempt list; when the unwrapped compute-terminate and database-isolate calls
it reaches succeed, every recorded resource's delete is attempted, whatever
the outcomes of the individually wrapped security-group, subnet and network
deletes. -/
theorem cleanup_amended (d : DeleteOracle) (r : Resources) :
    (∃ t, cleanupAllAttempts r = cleanup d r ++ t) ∧
    (cleanupHeadOk d r = true → cleanup d r = cleanupAllAttempts r) := by
  constructor
  · rcases hc : r.cvmInstanceId with _ | i
    · rcases hm : r.mysqlInstanceId with _ | j
      · exact ⟨[], by simp [cleanup, cleanupBody, cleanupAfterCvm, cleanupAllAttempts, hc, hm]⟩
      · rcases hd : d.isolateMysql j with e | u
        · exact ⟨cleanupRest r,
            by simp [cleanup, cleanupBody, cleanupAfterCvm, cleanupAllAttempts, hc, hm, hd]⟩
        · exact ⟨[], by simp [cleanup, cleanupBody, cleanupAfterCvm, cleanupAllAttempts, hc, hm, hd]⟩
    · rcases hd : d.terminateCvm i with e | u
      · rcases hm : r.mysqlInstanceId with _ | j
        · exact ⟨cleanupRest r,
            by simp [cleanup, cleanupBody, cleanupAfterCvm, cleanupAllAttempts, hc, hm, hd]⟩
        · exact ⟨DelEvent.isolateMysql j :: cleanupRest r,
            by simp [cleanup, cleanupBody, cleanupAfterCvm, cleanupAllAttempts, hc, hm, hd]⟩
      · rcases hm : r.mysqlInstanceId with _ | j
        · exact ⟨[], by simp [cleanup, cleanupBody, cleanupAfterCvm, cleanupAllAttempts, hc, hm, hd]⟩
        · rcases hd2 : d.isolateMysql j with e | u
          · exact ⟨cleanupRest r,
              by simp [cleanup, cleanupBody, cleanupAfterCvm, cleanupAllAttempts, hc, hm, hd, hd2]⟩
          · exact ⟨[], by simp [cleanup, cleanupBody, cleanupAfterCvm, cleanupAllAttempts, hc, hm, hd, hd2]⟩
  · intro hok
    rcases hc : r.cvmInstanceId with _ | i
    · rcases hm : r.mysqlInstanceId with _ | j
      · simp [cleanup, cleanupBody, cleanupAfterCvm, cleanupAllAttempts, hc, hm]
      · rcases hd : d.isolateMysql j with e | u
        · simp [cleanupHeadOk, hc, hm, hd] at hok
        · simp [cleanup, cleanupBody, cleanupAfterCvm, cleanupAllAttempts, hc, hm, hd]
    · rcases hd : d.terminateCvm i with e | u
      · simp [cleanupHeadOk, hc, hd] at hok
      · rcases hm : r.mysqlInstanceId with _ | j
        · simp [cleanup, cleanupBody, cleanupAfterCvm, cleanupAllAttempts, hc, hm, hd]
        · rcases hd2 : d.isolateMysql j with e | u
          · simp [cleanupHeadOk, hc, hm, hd, hd2] at hok
          · simp [cleanup, cleanupBody, cleanupAfterCvm, cleanupAllAttempts, hc, hm, hd, hd2]

/-- C2 amended witness at a concrete record and oracle. -/
theorem cleanup_amended_witness :
    (∃ t, cleanupAllAttempts partialResourcesProbe =
      cleanup goodDeleteOracle partialResourcesProbe ++ t) ∧
    cleanup goodDeleteOracle partialResourcesProbe =
      cleanupAllAttempts partialResourcesProbe :=
  ⟨(cleanup_amended goodDeleteOracle partialResourcesProbe).1,
   (cleanup_amended goodDeleteOracle partialResourcesProbe).2 (by decide)⟩

/-- One `DescribeInstances` entry, with the fields the wait loop reads. -/
structure CvmStatus where
  instanceState : String
  publicIpAddresses : List String
  privateIpAddresses : List String
deriving DecidableEq

/-- tencent.py lines 1058-1078, the while loop of `_wait_for_cvm_running`,
with discrete time: `describe t` is the instance set the poll at elapsed time
`t` returns, each poll is instantaneous and each sleep advances the clock by
the fixed 10 second interval.  Returns the Python result together with the
elapsed time at exit. -/
def waitCvmGo (describe : Nat → List CvmStatus) (maxWait t : Nat) :
    Except PyErr (Option String × Option String) × Nat :=
  if _h : t < maxWait then
    match (describe t).head? with
    | some inst =>
      if inst.instanceState = "RUNNING" then
        (.ok (inst.publicIpAddresses.head?, inst.privateIpAddresses.head?), t)
      else waitCvmGo describe maxWait (t + 10)
    | none => waitCvmGo describe maxWait (t + 10)
  else (.error (.other "Instance did not become running in time"), t)
termination_by maxWait - t
decreasing_by all_goals omega

/-- tencent.py lines 1058-1078, `_wait_for_cvm_running` (default max wait
300 seconds). -/
def waitForCvmRunning (describe : Nat → List CvmStatus) (maxWait : Nat := 300) :
    Except PyErr (Option String × Option String) × Nat :=
  waitCvmGo describe maxWait 0

/-- A poll at time `t` observes a first instance in state RUNNING. -/
def isRunningAt (describe : Nat → List CvmStatus) (t : Nat) : Prop :=
  ∃ st, (describe t).head? = some st ∧ st.instanceState = "RUNNING"

/-- One unfolding step of the wait loop: past the deadline it raises. -/
theorem waitCvmGo_step_timeout (describe : Nat → List CvmStatus) (maxWait t : Nat)
    (ht : ¬ t < maxWait) :
    waitCvmGo describe maxWait t =
      (.error (.other "Instance did not become running in time"), t) := by
  rw [waitCvmGo.eq_def, dif_neg ht]

/-- One unfolding step of the wait loop: a poll that does not observe RUNNING
sleeps and continues. -/
theorem waitCvmGo_step_continue (describe : Nat → List CvmStatus) (maxWait t : Nat)
    (ht : t < maxWait) (hnr : ¬ isRunningAt describe t) :
    waitCvmGo describe maxWait t = waitCvmGo describe maxWait (t + 10) := by
  rw [waitCvmGo.eq_def, dif_pos ht]
  rcases hh : (describe t).head? with _ | st
  · rfl
  · have hrun : ¬ st.instanceState = "RUNNING" := fun hr => hnr ⟨st, hh, hr⟩
    exact if_neg hrun

/-- One unfolding step of the wait loop: a poll that observes RUNNING returns
the address heads immediately. -/
theorem waitCvmGo_step_return (describe : Nat → List CvmStatus) (maxWait t : Nat)
    (st : CvmStatus) (ht : t < maxWait) (hh : (describe t).head? = some st)
    (hrun : st.instanceState = "RUNNING") :
    waitCvmGo describe maxWait t =
      (.ok (st.publicIpAddresses.head?, st.privateIpAddresses.head?), t) := by
  rw [waitCvmGo.eq_def, dif_pos ht, hh]
  exact if_pos hrun

/-- Timeout behaviour of the wait loop when no poll ever observes RUNNING. -/
theorem waitCvmGo_timeout_aux (describe : Nat → List CvmStatus) (maxWait : Nat)
    (hnr : ∀ u, ¬ isRunningAt describe u) :
    ∀ n t, maxWait - t ≤ n →
      (waitCvmGo describe maxWait t).1 =
        .error (.other "Instance did not become running in time") ∧
      (t < maxWait → maxWait ≤ (waitCvmGo describe maxWait t).2 ∧
        (waitCvmGo describe maxWait t).2 < maxWait + 10) ∧
      (maxWait ≤ t → (waitCvmGo describe maxWait t).2 = t) := by
  intro n
  induction n with
  | zero =>
    intro t hle
    have ht : ¬ t < maxWait := by omega
    rw [waitCvmGo_step_timeout describe maxWait t ht]
    exact ⟨rfl, fun hlt => absurd hlt ht, fun _ => rfl⟩
  | succ n ih =>
    intro t hle
    by_cases ht : t < maxWait
    · rw [waitCvmGo_step_continue describe maxWait t ht (hnr t)]
      have hstep := ih (t + 10) (by omega)
      have hbounds : maxWait ≤ (waitCvmGo describe maxWait (t + 10)).2 ∧
          (waitCvmGo describe maxWait (t + 10)).2 < maxWait + 10 := by
        by_cases h10 : t + 10 < maxWait
        · exact hstep.2.1 h10
        · have := hstep.2.2 (by omega)
          omega
      exact ⟨hstep.1, fun _ => hbounds, fun hge => absurd hge (by omega)⟩
    · rw [waitCvmGo_step_timeout describe maxWait t ht]
      exact ⟨rfl, fun hlt => absurd hlt ht, fun _ => rfl⟩

/-- First-success behaviour of the wait loop. -/
theorem waitCvmGo_running_aux (describe : Nat → List CvmStatus) (maxWait : Nat) :
    ∀ k t st, (∀ j, j < k → ¬ isRunningAt describe (t + 10 * j)) →
      t + 10 * k < maxWait →
      (describe (t + 10 * k)).head? = some st →
      st.instanceState = "RUNNING" →
      waitCvmGo describe maxWait t =
        (.ok (st.publicIpAddresses.head?, st.privateIpAddresses.head?), t + 10 * k) := by
  intro k
  induction k with
  | zero =>
    intro t st _ hlt hh hrun
    have h0 : t + 10 * 0 = t := by ring
    rw [h0] at hlt hh ⊢
    exact waitCvmGo_step_return describe maxWait t st hlt hh hrun
  | succ k ih =>
    intro t st hnr hlt hh hrun
    have ht : t < maxWait := by omega
    have hnr0 : ¬ isRunningAt describe t := by
      have := hnr 0 (by omega)
      simpa using this
    rw [waitCvmGo_step_continue describe maxWait t ht hnr0]
    have heq : t + 10 + 10 * k = t + 10 * (k + 1) := by ring
    have := ih (t + 10) st
      (fun j hj => by
        have := hnr (j + 1) (by omega)
        have harg : t + 10 * (j + 1) = t + 10 + 10 * j := by ring
        rwa [harg] at this)
      (by omega) (by rw [heq]; exact hh) hrun
    rw [heq] at this
    exact this

/-- C5 amended: `_wait_for_cvm_running` polls on a fixed 10 second interval;
it returns (head of public addresses, head of private addresses) at the first
poll that observes state RUNNING — even when no public address is present, in
which case the public half is none — and when no poll ever observes RUNNING
it raises the timeout error at an elapsed time of at least max wait and less
than max wait plus one polling interval. -/
theorem waitForCvmRunning_amended (describe : Nat → List CvmStatus) (maxWait : Nat) :
    ((∀ u, ¬ isRunningAt describe u) →
      (waitForCvmRunning describe maxWait).1 =
        .error (.other "Instance did not become running in time") ∧
      maxWait ≤ (waitForCvmRunning describe maxWait).2 ∧
      (waitForCvmRunning describe maxWait).2 < maxWait + 10) ∧
    (∀ k st, (∀ j, j < k → ¬ isRunningAt describe (10 * j)) → 10 * k < maxWait →
      (describe (10 * k)).head? = some st → st.instanceState = "RUNNING" →
      waitForCvmRunning describe maxWait =
        (.ok (st.publicIpAddresses.head?, st.privateIpAddresses.head?), 10 * k)) := by
  constructor
  · intro hnr
    have haux := waitCvmGo_timeout_aux describe maxWait hnr (maxWait - 0) 0 (by omega)
    rcases haux with ⟨h1, h2, h3⟩
    refine ⟨h1, ?_, ?_⟩
    · by_cases h0 : 0 < maxWait
      · exact (h2 h0).1
      · have := h3 (by omega)
        simp only [waitForCvmRunning]
        omega
    · by_cases h0 : 0 < maxWait
      · exact (h2 h0).2
      · have := h3 (by omega)
        simp only [waitForCvmRunning]
        omega
  · intro k st hnr hlt hh hrun
    have := waitCvmGo_running_aux describe maxWait k 0 st
      (by simpa using hnr) (by simpa using hlt) (by simpa using hh) hrun
    simpa [waitForCvmRunning] using this

/-- The C5 counterexample poll trace: the instance is RUNNING from the first
poll on but never has a public address. -/
def runningNoIpProbe : Nat → List CvmStatus :=
  fun _ => [{ instanceState := "RUNNING", publicIpAddresses := [],
              privateIpAddresses := ["172.17.0.5"] }]

/-- C5 counterexample: at the very first poll the status is RUNNING but no
public address is present, and `_wait_for_cvm_running` returns immediately
with a public half of none instead of waiting for a poll where a public
address is present (or timing out). -/
theorem wait_returns_without_public_ip :
    waitForCvmRunning runningNoIpProbe 300 = (.ok (none, some "172.17.0.5"), 0) := by
  rw [waitForCvmRunning, waitCvmGo.eq_def, dif_pos (by omega : (0 : Nat) < 300)]
  rfl

/-- The never-running poll trace for the C5 witness. -/
def neverRunningProbe : Nat → List CvmStatus :=
  fun _ => [{ instanceState := "PENDING", publicIpAddresses := [],
              privateIpAddresses := [] }]

/-- C5 amended witness: the timeout fires between 25 and 35 seconds for a
25 second max wait on a never-running trace. -/
theorem waitForCvmRunning_amended_witness :
    (waitForCvmRunning neverRunningProbe 25).1 =
      .error (.other "Instance did not become running in time") ∧
    25 ≤ (waitForCvmRunning neverRunningProbe 25).2 ∧
    (waitForCvmRunning neverRunningProbe 25).2 < 25 + 10 :=
  (waitForCvmRunning_amended neverRunningProbe 25).1 (by
    intro u hu
    rcases hu with ⟨st, hst, hrun⟩
    have : st = { instanceState := "PENDING", publicIpAddresses := [],
                  privateIpAddresses := [] } := by
      simpa [neverRunningProbe] using hst.symm
    rw [this] at hrun
    exact absurd hrun (by decide))

/-- network.py lines 75-89, `_get_available_zones`: the static zone table of
the network provisioner, with the generic three-zone fallback. -/
def zoneMappings : List (String × List String) :=
  [("ap-guangzhou", ["ap-guangzhou-3", "ap-guangzhou-4", "ap-guangzhou-6", "ap-guangzhou-7"]),
   ("ap-shanghai", ["ap-shanghai-2", "ap-shanghai-3", "ap-shanghai-4", "ap-shanghai-5"]),
   ("ap-beijing", ["ap-beijing-3", "ap-beijing-4", "ap-beijing-5", "ap-beijing-6", "ap-beijing-7"]),
   ("ap-chengdu", ["ap-chengdu-1", "ap-chengdu-2"]),
   ("ap-nanjing", ["ap-nanjing-1", "ap-nanjing-2", "ap-nanjing-3"]),
   ("ap-hongkong", ["ap-hongkong-2", "ap-hongkong-3"]),
   ("ap-singapore", ["ap-singapore-1", "ap-singapore-2", "ap-singapore-3"])]

/-- network.py lines 75-89: the candidate zones of a region. -/
def networkGetAvailableZones (region : String) : List String :=
  (zoneMappings.lookup region).getD [region ++ "-1", region ++ "-2", region ++ "-3"]

/-- The fields of a `CreateSubnet` request (network.py lines 47-54). -/
structure SubnetReq where
  vpcId : String
  subnetName : String
  cidrBlock : String
  zone : String
deriving DecidableEq

/-- The subnet request built for the zone at position `idx` of the zone list:
a distinct address block slice per zone index (network.py line 51). -/
def mkSubnetReq (vpcId : String) (idx : Nat) (zone : String) : SubnetReq :=
  { vpcId := vpcId, subnetName := "gitcloud-subnet-" ++ zone,
    cidrBlock := "10.0." ++ toString (idx + 1) ++ ".0/24", zone := zone }

/-- network.py lines 44-63, the per-zone subnet loop of
`create_vpc_and_subnets`: an SDK failure for one zone is logged and the zone
skipped; any other exception escapes the loop (only
TencentCloudSDKException is caught).  Returns the attempted requests
alongside the accumulated zone-to-subnet pairs. -/
def createSubnetsLoop (createSubnet : SubnetReq → Except PyErr String)
    (vpcId : String) :
    List (Nat × String) → List SubnetReq × Except PyErr (List (String × String))
  | [] => ([], .ok [])
  | (idx, zone) :: rest =>
    match createSubnet (mkSubnetReq vpcId idx zone) with
    | .ok subnetId =>
      (mkSubnetReq vpcId idx zone :: (createSubnetsLoop createSubnet vpcId rest).1,
       (createSubnetsLoop createSubnet vpcId rest).2.map fun l => (zone, subnetId) :: l)
    | .error (.sdk _) =>
      (mkSubnetReq vpcId idx zone :: (createSubnetsLoop createSubnet vpcId rest).1,
       (createSubnetsLoop createSubnet vpcId rest).2)
    | .error (.other m) => ([mkSubnetReq vpcId idx zone], .error (.other m))

/-- network.py lines 19-72, `create_vpc_and_subnets`: create one VPC, then
one subnet per candidate zone of the static zone table, and fail with the
no-subnets error exactly when the subnet dictionary is empty afterwards.  The
outer except clause only re-raises SDK errors, so it is the identity on the
raised exception. -/
def createVpcAndSubnets (createVpc : Except PyErr String)
    (createSubnet : SubnetReq → Except PyErr String) (region : String) :
    List SubnetReq × Except PyErr (String × List (String × String)) :=
  match createVpc with
  | .error e => ([], .error e)
  | .ok vpcId =>
    match (createSubnetsLoop createSubnet vpcId (networkGetAvailableZones region).enum).2 with
    | .error e =>
      ((createSubnetsLoop createSubnet vpcId (networkGetAvailableZones region).enum).1,
       .error e)
    | .ok subnets =>
      if subnets.isEmpty then
        ((createSubnetsLoop createSubnet vpcId (networkGetAvailableZones region).enum).1,
         .error (.other "Failed to create any subnets"))
      else
        ((createSubnetsLoop createSubnet vpcId (networkGetAvailableZones region).enum).1,
         .ok (vpcId, subnets))

/-- The provider call raises only SDK exceptions (never a plain Python
exception), which is what Tencent SDK calls do. -/
def sdkOnly (x : Except PyErr String) : Prop :=
  ∀ m, x ≠ .error (.other m)

/-- The zone-to-subnet pairs the subnet loop accumulates: one pair per zone
whose creation call succeeded. -/
def successfulSubnets (createSubnet : SubnetReq → Except PyErr String)
    (vpcId : String) (idxed : List (Nat × String)) : List (String × String) :=
  idxed.filterMap fun p =>
    match createSubnet (mkSubnetReq vpcId p.1 p.2) with
    | .ok subnetId => some (p.2, subnetId)
    | .error _ => none

/-- Under SDK-only failures the subnet loop attempts every indexed zone and
accumulates exactly the successful pairs. -/
theorem createSubnetsLoop_char (createSubnet : SubnetReq → Except PyErr String)
    (vpcId : String) (idxed : List (Nat × String))
    (h : ∀ p ∈ idxed, sdkOnly (createSubnet (mkSubnetReq vpcId p.1 p.2))) :
    (createSubnetsLoop createSubnet vpcId idxed).1 =
      idxed.map (fun p => mkSubnetReq vpcId p.1 p.2) ∧
    (createSubnetsLoop createSubnet vpcId idxed).2 =
      .ok (successfulSubnets createSubnet vpcId idxed) := by
  induction idxed with
  | nil => simp [createSubnetsLoop, successfulSubnets]
  | cons p rest ih =>
    obtain ⟨idx, zone⟩ := p
    have hrest := ih fun q hq => h q (List.mem_cons_of_mem _ hq)
    cases hc : createSubnet (mkSubnetReq vpcId idx zone) with
    | ok subnetId =>
      constructor
      · simp [createSubnetsLoop, hc, hrest.1]
      · simp [createSubnetsLoop, hc, hrest.2, successfulSubnets, List.filterMap_cons,
          Except.map]
    | error e =>
      cases e with
      | sdk m =>
        constructor
        · simp [createSubnetsLoop, hc, hrest.1]
        · simp [createSubnetsLoop, hc, hrest.2, successfulSubnets, List.filterMap_cons]
      | other m =>
        exact absurd hc (h (idx, zone) (List.mem_cons_self _ _) m)

/-- C4: when the VPC creation succeeds and provider failures are SDK
exceptions, `create_vpc_and_subnets` attempts exactly one subnet per
candidate zone in order, the request for the zone at index i carries the
address block 10.0.(i+1).0/24, and the operation fails (with the
network-provisioning failure) if and only if zero subnet creations succeed;
otherwise it returns the VPC id with the successful zone-to-subnet pairs. -/
theorem createVpcAndSubnets_spec (createVpc : Except PyErr String)
    (createSubnet : SubnetReq → Except PyErr String) (region vpcId : String)
    (hok : createVpc = .ok vpcId)
    (hsdk : ∀ req, sdkOnly (createSubnet req)) :
    (createVpcAndSubnets createVpc createSubnet region).1 =
      (networkGetAvailableZones region).enum.map
        (fun p => mkSubnetReq vpcId p.1 p.2) ∧
    ((createVpcAndSubnets createVpc createSubnet region).1.map
        fun req => req.cidrBlock) =
      (List.range (networkGetAvailableZones region).length).map
        (fun i => "10.0." ++ toString (i + 1) ++ ".0/24") ∧
    (createVpcAndSubnets createVpc createSubnet region).2 =
      (if (successfulSubnets createSubnet vpcId
            (networkGetAvailableZones region).enum).isEmpty then
        .error (.other "Failed to create any subnets")
      else .ok (vpcId, successfulSubnets createSubnet vpcId
        (networkGetAvailableZones region).enum)) := by
  subst hok
  have hloop := createSubnetsLoop_char createSubnet vpcId
    (networkGetAvailableZones region).enum (fun p _ => hsdk _)
  have htrace : (createVpcAndSubnets (.ok vpcId) createSubnet region).1 =
      (networkGetAvailableZones region).enum.map (fun p => mkSubnetReq vpcId p.1 p.2) := by
    simp only [createVpcAndSubnets, hloop.2, hloop.1]
    split <;> rfl
  refine ⟨htrace, ?_, ?_⟩
  · rw [htrace]
    rw [List.map_map]
    have hfst : ((networkGetAvailableZones region).enum.map Prod.fst) =
        List.range (networkGetAvailableZones region).length := List.enum_map_fst _
    calc ((networkGetAvailableZones region).enum.map
            ((fun req => req.cidrBlock) ∘ fun p => mkSubnetReq vpcId p.1 p.2))
        = ((networkGetAvailableZones region).enum.map
            ((fun i => "10.0." ++ toString (i + 1) ++ ".0/24") ∘ Prod.fst)) := by
          apply List.map_congr_left
          intro p _
          rfl
      _ = (((networkGetAvailableZones region).enum.map Prod.fst).map
            (fun i => "10.0." ++ toString (i + 1) ++ ".0/24")) := by
          rw [List.map_map]
      _ = (List.range (networkGetAvailableZones region).length).map
            (fun i => "10.0." ++ toString (i + 1) ++ ".0/24") := by rw [hfst]
  · simp [createVpcAndSubnets, hloop.2]
    split <;> simp

/-- The subnet-creation probe for the C4 witness: the first Chengdu zone is
sold out with an SDK error, the second succeeds. -/
def subnetProbe : SubnetReq → Except PyErr String :=
  fun req => if req.zone = "ap-chengdu-1" then .error (.sdk "LimitExceeded")
             else .ok "subnet-ok2"

/-- C4 witness at a concrete two-zone region with one failing zone. -/
theorem createVpcAndSubnets_spec_witness :
    (createVpcAndSubnets (.ok "vpc-w") subnetProbe "ap-chengdu").1 =
      (networkGetAvailableZones "ap-chengdu").enum.map
        (fun p => mkSubnetReq "vpc-w" p.1 p.2) ∧
    (createVpcAndSubnets (.ok "vpc-w") subnetProbe "ap-chengdu").2 =
      (if (successfulSubnets subnetProbe "vpc-w"
            (networkGetAvailableZones "ap-chengdu").enum).isEmpty then
        .error (.other "Failed to create any subnets")
      else .ok ("vpc-w", successfulSubnets subnetProbe "vpc-w"
        (networkGetAvailableZones "ap-chengdu").enum)) :=
  ⟨(createVpcAndSubnets_spec (.ok "vpc-w") subnetProbe "ap-chengdu" "vpc-w" rfl
      (by intro req m; simp [subnetProbe]; split <;> simp)).1,
   (createVpcAndSubnets_spec (.ok "vpc-w") subnetProbe "ap-chengdu" "vpc-w" rfl
      (by intro req m; simp [subnetProbe]; split <;> simp)).2.2⟩

/-- Outcomes of the provider calls inside a security-group creator
(network.py lines 91-156 and 159-205): the group creation and the policy
attachments. -/
structure SgOracle where
  createGroup : Except PyErr String
  ingress : String → Except PyErr Unit
  egress : String → Except PyErr Unit

/-- The try-block of `create_security_group_for_all` (network.py lines
93-152): create the group, then the allow-all ingress policy, then the
allow-all egress policy. -/
def sgAllBody (o : SgOracle) : Except PyErr String :=
  match o.createGroup with
  | .error e => .error e
  | .ok sgId =>
    match o.ingress sgId with
    | .error e => .error e
    | .ok _ =>
      match o.egress sgId with
      | .error e => .error e
      | .ok _ => .ok sgId

/-- network.py lines 91-156, `create_security_group_for_all`: any SDK failure
in the body is caught and turned into a returned None; a non-SDK exception
would escape. -/
def createSecurityGroupForAll (o : SgOracle) : Except PyErr (Option String) :=
  match sgAllBody o with
  | .ok sgId => .ok (some sgId)
  | .error (.sdk _) => .ok none
  | .error (.other m) => .error (.other m)

/-- The try-block of `create_security_group_for_mysql` (network.py lines
161-201): create the group, then the single port-3306 ingress policy. -/
def sgMysqlBody (o : SgOracle) : Except PyErr String :=
  match o.createGroup with
  | .error e => .error e
  | .ok sgId =>
    match o.ingress sgId with
    | .error e => .error e
    | .ok _ => .ok sgId

/-- network.py lines 159-205, `create_security_group_for_mysql`: any SDK
failure in the body is caught and turned into a returned None. -/
def createSecurityGroupForMysql (o : SgOracle) : Except PyErr (Option String) :=
  match sgMysqlBody o with
  | .ok sgId => .ok (some sgId)
  | .error (.sdk _) => .ok none
  | .error (.other m) => .error (.other m)

/-- tencent.py lines 62-68, the `CVMSpec` dataclass. -/
structure CVMSpec where
  cpuCores : Int := 2
  memoryGb : Int := 4
  diskGb : Int := 50
  gpuType : Option String := none
deriving DecidableEq

/-- tencent.py lines 71-77, the `MySQLSpec` dataclass. -/
structure MySQLSpec where
  cpuCores : Int := 2
  memoryMb : Int := 4000
  storageGb : Int := 100
  version : String := "8.0"
deriving DecidableEq

/-- tencent.py lines 80-85, the `ResourceSpec` dataclass. -/
structure ResourceSpec where
  cvm : Option CVMSpec := none
  mysql : Option MySQLSpec := none
  region : String := "ap-guangzhou"
deriving DecidableEq

/-- The f-string rendering of an optional string: Python prints None. -/
def pyShowOpt : Option String → String
  | none => "None"
  | some s => s

/-- The lines of the 00_specification info block after the Region line
(tencent.py lines 231-242). -/
def specTailLines (spec : ResourceSpec) : List String :=
  ["",
   "CVM:",
   (match spec.cvm with
    | some c => "  CPU: " ++ (toString c.cpuCores ++ " cores")
    | none => "  Not provisioned"),
   (match spec.cvm with
    | some c => "  Memory: " ++ (toString c.memoryGb ++ " GB")
    | none => ""),
   (match spec.cvm with
    | some c => "  Disk: " ++ (toString c.diskGb ++ " GB")
    | none => ""),
   (match spec.cvm with
    | some c => "  GPU: " ++ (match c.gpuType with
        | some g => if g = "" then "None" else g
        | none => "None")
    | none => ""),
   "",
   "MySQL:",
   (match spec.mysql with
    | some m => "  CPU: " ++ (toString m.cpuCores ++ " cores")
    | none => "  Not provisioned"),
   (match spec.mysql with
    | some m => "  Memory: " ++ (toString m.memoryMb ++ " MB")
    | none => ""),
   (match spec.mysql with
    | some m => "  Storage: " ++ (toString m.storageGb ++ " GB")
    | none => "")]

/-- The info block of the 00_specification snapshot (tencent.py lines
229-242), line by line. -/
def specInfoLines (spec : ResourceSpec) : List String :=
  "Resource Specification:" :: ("Region: " ++ spec.region) :: specTailLines spec

/-- The info block of the 01_network snapshot (tencent.py lines 284-289). -/
def networkInfoLines (vpcId : String) (subnets : List (String × String)) :
    List String :=
  ("VPC ID: " ++ vpcId) :: "Subnets:" ::
    subnets.map fun p => "  " ++ (p.1 ++ (": " ++ p.2))

/-- The info block of the 02_cvm snapshot (tencent.py lines 333-339). -/
def cvmInfoLines (instanceId : String) (pub priv : Option String)
    (keyPath : String) (sgId : Option String) : List String :=
  ["Instance ID: " ++ instanceId,
   "Public IP: " ++ pyShowOpt pub,
   "Private IP: " ++ pyShowOpt priv,
   "SSH Key: " ++ keyPath,
   "SSH Command: ssh -i " ++ (keyPath ++ (" ubuntu@" ++ pyShowOpt pub)),
   "Security Group: " ++ pyShowOpt sgId]

/-- The info block of the 03_mysql snapshot (tencent.py lines 384-391). -/
def mysqlInfoLines (instanceId host : String) (port : Int) (password : String)
    (sgId : Option String) : List String :=
  ["Instance ID: " ++ instanceId,
   "Host: " ++ host,
   "Port: " ++ toString port,
   "Username: root",
   "Password: " ++ password,
   "Connection: mysql -h " ++ (host ++ (" -P " ++ (toString port ++ " -u root -p"))),
   "Security Group: " ++ pyShowOpt sgId]

/-- The info block of the 99_error snapshot (tencent.py line 264). -/
def errorInfoLines (e : PyErr) : List String :=
  ["Error: " ++ strOfErr e]

/-- One observable side effect of a provision run: a stage snapshot write, a
provider creation attempt, or the compensator invocation. -/
inductive Event where
  | save (stage : String) (info : List String)
  | subnetAttempt (req : SubnetReq)
  | cvmAttempt (req : CvmRunReq)
  | mysqlAttempt (req : MysqlReq)
  | cleanupCall (r : Resources)
deriving DecidableEq

/-- One `DescribeDBInstances` entry, with the fields the wait loop reads. -/
structure CdbInstance where
  status : Int
  vip : String
  vport : Int
deriving DecidableEq

/-- tencent.py lines 1080-1098, the while loop of `_wait_for_mysql_ready`,
with the same discrete-time convention as the CVM wait loop. -/
def waitMysqlGo (describe : Nat → List CdbInstance) (maxWait t : Nat) :
    Except PyErr CdbInstance × Nat :=
  if _h : t < maxWait then
    match (describe t).head? with
    | some inst =>
      if inst.status = 1 then (.ok inst, t)
      else waitMysqlGo describe maxWait (t + 10)
    | none => waitMysqlGo describe maxWait (t + 10)
  else (.error (.other "MySQL instance did not become ready in time"), t)
termination_by maxWait - t
decreasing_by all_goals omega

/-- tencent.py lines 1080-1098, `_wait_for_mysql_ready` (default max wait
600 seconds). -/
def waitForMysqlReady (describe : Nat → List CdbInstance) (maxWait : Nat := 600) :
    Except PyErr CdbInstance × Nat :=
  waitMysqlGo describe maxWait 0

/-- Outcomes of every provider call a provision run can make.  The zone list
is the result of `_get_available_zones` (tencent.py lines 1048-1056), which
never raises thanks to its bare-except fallback; the password suffix stands
for the random characters appended to the fixed prefix (tencent.py line
989). -/
structure ProvisionOracle where
  createVpc : Except PyErr String
  createSubnet : SubnetReq → Except PyErr String
  genKeypair : Except PyErr (String × String)
  sgAll : SgOracle
  runInstances : CvmRunReq → Except PyErr String
  describeCvm : Nat → List CvmStatus
  setupDocker : Except PyErr Bool
  sgMysql : SgOracle
  createMysql : MysqlReq → Except PyErr String
  describeMysql : Nat → List CdbInstance
  availableZones : List String
  passwordSuffix : String

/-- tencent.py lines 291-347, `_provision_cvm`: map the instance type,
generate the keypair, create the compute security group (recording its
possibly-None id), create the instance across zones, wait for it, save the
02_cvm snapshot, then run the Docker setup.  State is threaded so that the
partially filled record survives a failure. -/
def provisionCvmPhase (po : ProvisionOracle) (c : CVMSpec) (r : Resources) :
    Except PyErr Unit × Resources × List Event :=
  match po.genKeypair with
  | .error e => (.error e, r, [])
  | .ok kp =>
    let r1 := { r with sshPrivateKeyPath := some kp.1 }
    match createSecurityGroupForAll po.sgAll with
    | .error e => (.error e, r1, [])
    | .ok sgId =>
      let r2 := { r1 with
        securityGroupIds := some (r1.securityGroupIds.getD [] ++ [sgId]) }
      match createCvmInstance po.runInstances
          (getInstanceType c.cpuCores c.memoryGb c.gpuType).1 sgId
          (r2.subnets.getD []) po.availableZones with
      | (reqs, res) =>
        match res with
        | .error e => (.error e, r2, reqs.map Event.cvmAttempt)
        | .ok instanceId =>
          let r3 := { r2 with cvmInstanceId := some instanceId }
          match (waitForCvmRunning po.describeCvm 300).1 with
          | .error e => (.error e, r3, reqs.map Event.cvmAttempt)
          | .ok ips =>
            let r4 := { r3 with cvmPublicIp := ips.1, cvmPrivateIp := ips.2 }
            let evs := reqs.map Event.cvmAttempt ++
              [Event.save "02_cvm" (cvmInfoLines instanceId ips.1 ips.2 kp.1 sgId)]
            match po.setupDocker with
            | .error e => (.error e, r4, evs)
            | .ok _ => (.ok (), r4, evs)

/-- tencent.py lines 349-392, `_provision_mysql`: create the database
security group (recording its possibly-None id), create the instance across
zones with the generated root password, wait for it, record host, port and
the root credentials, and save the 03_mysql snapshot. -/
def provisionMysqlPhase (po : ProvisionOracle) (_m : MySQLSpec) (r : Resources) :
    Except PyErr Unit × Resources × List Event :=
  match createSecurityGroupForMysql po.sgMysql with
  | .error e => (.error e, r, [])
  | .ok sgId =>
    let r1 := { r with
      securityGroupIds := some (r.securityGroupIds.getD [] ++ [sgId]) }
    let rootPassword := "GitCloud@" ++ po.passwordSuffix
    match createMysqlInstance po.createMysql (r1.subnets.getD [])
        po.availableZones with
    | (reqs, res) =>
      match res with
      | .error e => (.error e, r1, reqs.map Event.mysqlAttempt)
      | .ok instanceId =>
        let r2 := { r1 with mysqlInstanceId := some instanceId }
        match (waitForMysqlReady po.describeMysql 600).1 with
        | .error e => (.error e, r2, reqs.map Event.mysqlAttempt)
        | .ok inst =>
          let r3 := { r2 with
            mysqlHost := some inst.vip, mysqlPort := some inst.vport,
            mysqlUsername := some "root", mysqlPassword := some rootPassword }
          (.ok (), r3, reqs.map Event.mysqlAttempt ++
            [Event.save "03_mysql"
              (mysqlInfoLines instanceId inst.vip inst.vport rootPassword sgId)])

/-- The optional MySQL step of the provision body (tencent.py lines
253-254). -/
def provisionMysqlStep (po : ProvisionOracle) (spec : ResourceSpec)
    (r : Resources) (ev : List Event) :
    Except PyErr Unit × Resources × List Event :=
  match spec.mysql with
  | some msq =>
    match provisionMysqlPhase po msq r with
    | (res, r2, ev2) => (res, r2, ev ++ ev2)
  | none => (.ok (), r, ev)

/-- tencent.py lines 227-260, the try-block of `provision`: save the
00_specification snapshot, create the network (saving the 01_network
snapshot), then provision the CVM and the MySQL instance when requested. -/
def provisionBody (po : ProvisionOracle) (spec : ResourceSpec) (r : Resources) :
    Except PyErr Unit × Resources × List Event :=
  let ev0 := [Event.save "00_specification" (specInfoLines spec)]
  match createVpcAndSubnets po.createVpc po.createSubnet spec.region with
  | (subnetReqs, netRes) =>
    let ev1 := ev0 ++ subnetReqs.map Event.subnetAttempt
    match netRes with
    | .error e => (.error e, r, ev1)
    | .ok net =>
      let r1 := { r with
                  vpcId := some net.1
                  subnets := some net.2
                  securityGroupIds := some [] }
      let ev2 := ev1 ++ [Event.save "01_network" (networkInfoLines net.1 net.2)]
      match spec.cvm with
      | some c =>
        match provisionCvmPhase po c r1 with
        | (res, r2, ev) =>
          match res with
          | .error e => (.error e, r2, ev2 ++ ev)
          | .ok _ => provisionMysqlStep po spec r2 (ev2 ++ ev)
      | none => provisionMysqlStep po spec r1 ev2

/-- tencent.py line 153: the record a provisioner starts from. -/
def initialResources (spec : ResourceSpec) : Resources :=
  { region := spec.region }

/-- tencent.py lines 222-268, `provision`: run the body; on success return
the accumulated record, and on any exception save the 99_error snapshot,
invoke `cleanup` on the record as populated so far, and re-raise the original
exception. -/
def provision (po : ProvisionOracle) (spec : ResourceSpec) :
    Except PyErr Resources × List Event :=
  match provisionBody po spec (initialResources spec) with
  | (res, r, ev) =>
    match res with
    | .ok _ => (.ok r, ev)
    | .error e =>
      (.error e, ev ++ [Event.save "99_error" (errorInfoLines e),
        Event.cleanupCall r])

/-- C1: whenever `provision` reports a failure to its caller, the failure is
exactly the error its body raised (never a secondary cleanup error), and the
event trace ends with the 99_error snapshot followed by the compensator
invoked on the record exactly as populated by the body so far. -/
theorem provision_error_invokes_cleanup_and_reraises
    (po : ProvisionOracle) (spec : ResourceSpec) (e : PyErr)
    (h : (provision po spec).1 = .error e) :
    ∃ r ev, provisionBody po spec (initialResources spec) = (.error e, r, ev) ∧
      (provision po spec).2 =
        ev ++ [Event.save "99_error" (errorInfoLines e), Event.cleanupCall r] := by
  rcases hb : provisionBody po spec (initialResources spec) with ⟨res, r, ev⟩
  cases res with
  | ok u =>
    rw [provision, hb] at h
    exact absurd h (by simp)
  | error e2 =>
    have he : e2 = e := by
      rw [provision, hb] at h
      simpa using h
    subst he
    refine ⟨r, ev, rfl, ?_⟩
    rw [provision, hb]

/-- The failing oracle for the C1 witness: VPC creation is refused. -/
def failingOracle : ProvisionOracle :=
  { createVpc := .error (.sdk "AuthFailure"),
    createSubnet := fun _ => .ok "subnet-w1",
    genKeypair := .ok ("key-path", "public-key"),
    sgAll := { createGroup := .ok "sg-a", ingress := fun _ => .ok (),
               egress := fun _ => .ok () },
    runInstances := fun _ => .ok "ins-w1",
    describeCvm := fun _ => [],
    setupDocker := .ok true,
    sgMysql := { createGroup := .ok "sg-b", ingress := fun _ => .ok (),
                 egress := fun _ => .ok () },
    createMysql := fun _ => .ok "cdb-w1",
    describeMysql := fun _ => [],
    availableZones := ["ap-guangzhou-3"],
    passwordSuffix := "Wx9" }

/-- C1 witness: a run whose network step fails persists the error snapshot,
invokes the compensator on the partial record, and re-raises the original
error. -/
theorem provision_error_path_witness :
    ∃ r ev,
      provisionBody failingOracle {} (initialResources {}) =
        (.error (.sdk "AuthFailure"), r, ev) ∧
      (provision failingOracle {}).2 =
        ev ++ [Event.save "99_error" (errorInfoLines (.sdk "AuthFailure")),
          Event.cleanupCall r] :=
  provision_error_invokes_cleanup_and_reraises failingOracle {} (.sdk "AuthFailure")
    (by decide)

/-- The first zone of the list is always attempted by the compute loop,
whatever the outcome of the attempt. -/
theorem createCvmInstance_head (run : CvmRunReq → Except PyErr String)
    (instanceType : String) (sgId : Option String)
    (subnets : List (String × String)) (z : String) (zs : List String) :
    ∃ tail, (createCvmInstance run instanceType sgId subnets (z :: zs)).1 =
      mkCvmReq instanceType sgId subnets z :: tail := by
  cases hr : run (mkCvmReq instanceType sgId subnets z) with
  | ok instanceId => exact ⟨[], by simp [createCvmInstance, hr]⟩
  | error e =>
    cases hb : cvmZoneRetryable e with
    | true =>
      exact ⟨(createCvmInstance run instanceType sgId subnets zs).1,
        by simp [createCvmInstance, hr, hb]⟩
    | false => exact ⟨[], by simp [createCvmInstance, hr, hb]⟩

/-- Once the keypair step succeeds and the security-group creator has
returned (possibly None), `_provision_cvm` records that very value in the
security-group list and every instance-creation attempt it makes appears in
its event trace. -/
theorem provisionCvmPhase_after_sg (po : ProvisionOracle) (c : CVMSpec)
    (r : Resources) (kp : String × String) (sgId : Option String)
    (h1 : po.genKeypair = .ok kp)
    (hsg : createSecurityGroupForAll po.sgAll = .ok sgId) :
    (provisionCvmPhase po c r).2.1.securityGroupIds =
      some (r.securityGroupIds.getD [] ++ [sgId]) ∧
    ∀ req ∈ (createCvmInstance po.runInstances
        (getInstanceType c.cpuCores c.memoryGb c.gpuType).1 sgId
        (r.subnets.getD []) po.availableZones).1,
      Event.cvmAttempt req ∈ (provisionCvmPhase po c r).2.2 := by
  rcases hcc : createCvmInstance po.runInstances
      (getInstanceType c.cpuCores c.memoryGb c.gpuType).1 sgId
      (r.subnets.getD []) po.availableZones with ⟨reqs, res⟩
  cases res with
  | error e =>
    constructor
    · simp [provisionCvmPhase, h1, hsg, hcc]
    · intro req hreq
      have hev : (provisionCvmPhase po c r).2.2 = reqs.map Event.cvmAttempt := by
        simp [provisionCvmPhase, h1, hsg, hcc]
      rw [hev]
      exact List.mem_map_of_mem _ hreq
  | ok instanceId =>
    cases hw : (waitForCvmRunning po.describeCvm 300).1 with
    | error e =>
      constructor
      · simp [provisionCvmPhase, h1, hsg, hcc, hw]
      · intro req hreq
        have hev : (provisionCvmPhase po c r).2.2 = reqs.map Event.cvmAttempt := by
          simp [provisionCvmPhase, h1, hsg, hcc, hw]
        rw [hev]
        exact List.mem_map_of_mem _ hreq
    | ok ips =>
      cases hd : po.setupDocker with
      | error e =>
        constructor
        · simp [provisionCvmPhase, h1, hsg, hcc, hw, hd]
        · intro req hreq
          have hev : (provisionCvmPhase po c r).2.2 =
              reqs.map Event.cvmAttempt ++
                [Event.save "02_cvm" (cvmInfoLines instanceId ips.1 ips.2 kp.1 sgId)] := by
            simp [provisionCvmPhase, h1, hsg, hcc, hw, hd]
          rw [hev]
          exact List.mem_append_left _ (List.mem_map_of_mem _ hreq)
      | ok b =>
        constructor
        · simp [provisionCvmPhase, h1, hsg, hcc, hw, hd]
        · intro req hreq
          have hev : (provisionCvmPhase po c r).2.2 =
              reqs.map Event.cvmAttempt ++
                [Event.save "02_cvm" (cvmInfoLines instanceId ips.1 ips.2 kp.1 sgId)] := by
            simp [provisionCvmPhase, h1, hsg, hcc, hw, hd]
          rw [hev]
          exact List.mem_append_left _ (List.mem_map_of_mem _ hreq)

/-- C10: when the provider call inside firewall-ruleset creation fails with an
SDK error, both security-group creators return None instead of raising; the
orchestrator then records that None in the security-group list of
ProvisionedResources and passes it as the security group of the
instance-creation request for the first zone — the ruleset failure by itself
does not abort the run. -/
theorem sg_failure_not_fatal (po : ProvisionOracle) (c : CVMSpec) (r : Resources)
    (o2 : SgOracle) (kp : String × String) (m m2 : String)
    (z : String) (zs : List String)
    (h1 : po.genKeypair = .ok kp)
    (h2 : po.sgAll.createGroup = .error (.sdk m))
    (h3 : o2.createGroup = .error (.sdk m2))
    (hz : po.availableZones = z :: zs) :
    createSecurityGroupForAll po.sgAll = .ok none ∧
    createSecurityGroupForMysql o2 = .ok none ∧
    (provisionCvmPhase po c r).2.1.securityGroupIds =
      some (r.securityGroupIds.getD [] ++ [none]) ∧
    Event.cvmAttempt (mkCvmReq (getInstanceType c.cpuCores c.memoryGb c.gpuType).1
        none (r.subnets.getD []) z) ∈ (provisionCvmPhase po c r).2.2 := by
  have hsg : createSecurityGroupForAll po.sgAll = .ok none := by
    simp [createSecurityGroupForAll, sgAllBody, h2]
  have hmain := provisionCvmPhase_after_sg po c r kp none h1 hsg
  refine ⟨hsg, ?_, hmain.1, ?_⟩
  · simp [createSecurityGroupForMysql, sgMysqlBody, h3]
  · obtain ⟨tail, htail⟩ := createCvmInstance_head po.runInstances
      (getInstanceType c.cpuCores c.memoryGb c.gpuType).1 none (r.subnets.getD []) z zs
    apply hmain.2
    rw [hz, htail]
    exact List.mem_cons_self _ _

/-- The oracle for the C10 witness: the compute security-group creation is
refused by the provider, everything else succeeds. -/
def sgFailingOracle : ProvisionOracle :=
  { createVpc := .ok "vpc-w2",
    createSubnet := fun _ => .ok "subnet-w2",
    genKeypair := .ok ("key-path", "public-key"),
    sgAll := { createGroup := .error (.sdk "LimitExceeded"),
               ingress := fun _ => .ok (), egress := fun _ => .ok () },
    runInstances := fun _ => .ok "ins-w2",
    describeCvm := fun _ => [],
    setupDocker := .ok true,
    sgMysql := { createGroup := .ok "sg-b", ingress := fun _ => .ok (),
                 egress := fun _ => .ok () },
    createMysql := fun _ => .ok "cdb-w2",
    describeMysql := fun _ => [],
    availableZones := ["ap-guangzhou-3"],
    passwordSuffix := "Wx9" }

/-- The failing database security-group oracle for the C10 witness. -/
def sgMysqlFailProbe : SgOracle :=
  { createGroup := .error (.sdk "LimitExceeded2"),
    ingress := fun _ => .ok (), egress := fun _ => .ok () }

/-- The default CVM request and the empty record, for the C10 witness. -/
def emptyResourcesProbe : Resources := {}

/-- The default CVM spec, for the C10 witness. -/
def defaultCvmSpecProbe : CVMSpec := {}

/-- C10 witness at concrete oracles and an empty starting record. -/
theorem sg_failure_not_fatal_witness :
    createSecurityGroupForAll sgFailingOracle.sgAll = .ok none ∧
    createSecurityGroupForMysql sgMysqlFailProbe = .ok none ∧
    (provisionCvmPhase sgFailingOracle defaultCvmSpecProbe
        emptyResourcesProbe).2.1.securityGroupIds =
      some (emptyResourcesProbe.securityGroupIds.getD [] ++ [none]) ∧
    Event.cvmAttempt (mkCvmReq
        (getInstanceType defaultCvmSpecProbe.cpuCores defaultCvmSpecProbe.memoryGb
          defaultCvmSpecProbe.gpuType).1
        none (emptyResourcesProbe.subnets.getD []) "ap-guangzhou-3") ∈
      (provisionCvmPhase sgFailingOracle defaultCvmSpecProbe
        emptyResourcesProbe).2.2 :=
  sg_failure_not_fatal sgFailingOracle defaultCvmSpecProbe emptyResourcesProbe
    sgMysqlFailProbe ("key-path", "public-key") "LimitExceeded" "LimitExceeded2"
    "ap-guangzhou-3" [] rfl rfl rfl rfl

/-- The whitespace set of Python `str.strip()`. -/
def isPySpace (c : Char) : Bool :=
  c = ' ' || c = '\t' || c = '\n' || c = '\x0b' || c = '\x0c' || c = '\r'

/-- Python `str.strip()` on a char list: drop whitespace from both ends. -/
def pyStripList (l : List Char) : List Char :=
  ((l.dropWhile isPySpace).reverse.dropWhile isPySpace).reverse

/-- Python `str.strip()`. -/
def pyStrip (s : String) : String :=
  ⟨pyStripList s.data⟩

/-- Python `str.startswith(pat)`. -/
def pyStartswith (s pat : String) : Bool :=
  pat.data.isPrefixOf s.data

/-- The chars after the first colon, if any: the second component of Python
`s.split(":", 1)`. -/
def afterFirstColon : List Char → Option (List Char)
  | [] => none
  | c :: rest => if c = ':' then some rest else afterFirstColon rest

/-- Python `s.split(":", 1)[1]`, on lines known to contain a colon. -/
def pySplitColonTail (s : String) : String :=
  ⟨(afterFirstColon s.data).getD []⟩

/-- Python `":" in s`. -/
def pyContainsColon (s : String) : Bool :=
  (afterFirstColon s.data).isSome

/-- A string that survives the session files intact: it holds no newline (so
it stays on one written line) and is invariant under `strip()`. -/
def cleanStr (s : String) : Prop :=
  '\n' ∉ s.data ∧ pyStrip s = s

instance cleanStrDec (s : String) : Decidable (cleanStr s) := by
  unfold cleanStr
  infer_instance

theorem isPrefixOf_append_left (p a b : List Char) (h : p.isPrefixOf a = true) :
    p.isPrefixOf (a ++ b) = true := by
  induction p generalizing a with
  | nil => simp [List.isPrefixOf]
  | cons c cs ih =>
    cases a with
    | nil => simp [List.isPrefixOf] at h
    | cons d ds =>
      simp only [List.cons_append, List.isPrefixOf, Bool.and_eq_true] at h ⊢
      exact ⟨h.1, ih ds h.2⟩

theorem isPrefixOf_append_stuck (p a b : List Char)
    (h1 : p.isPrefixOf a = false) (h2 : a.isPrefixOf p = false) :
    p.isPrefixOf (a ++ b) = false := by
  induction p generalizing a with
  | nil => simp [List.isPrefixOf] at h1
  | cons c cs ih =>
    cases a with
    | nil => simp [List.isPrefixOf] at h2
    | cons d ds =>
      simp only [List.cons_append, List.isPrefixOf, Bool.and_eq_false_iff] at h1 ⊢
      rcases h1 with h1 | h1
      · exact Or.inl h1
      · by_cases hcd : (c == d) = true
        · refine Or.inr (ih ds h1 ?_)
          simp only [List.isPrefixOf, Bool.and_eq_false_iff] at h2
          rcases h2 with h2 | h2
          · have hdc : d = c := (eq_of_beq hcd).symm
            subst hdc
            simp at h2
          · exact h2
        · exact Or.inl (by simpa using hcd)

/-- Positive startswith on a literal-headed line. -/
theorem pyStartswith_append_true (lit x pat : String)
    (h : pyStartswith lit pat = true) :
    pyStartswith (lit ++ x) pat = true := by
  unfold pyStartswith at *
  rw [String.data_append]
  exact isPrefixOf_append_left _ _ _ h

/-- Negative startswith on a literal-headed line: the pattern already
mismatches inside the literal. -/
theorem pyStartswith_append_false (lit x pat : String)
    (h1 : pyStartswith lit pat = false) (h2 : pyStartswith pat lit = false) :
    pyStartswith (lit ++ x) pat = false := by
  unfold pyStartswith at *
  rw [String.data_append]
  exact isPrefixOf_append_stuck _ _ _ h1 h2

theorem afterFirstColon_append_none (a b : List Char)
    (h : afterFirstColon a = none) :
    afterFirstColon (a ++ b) = afterFirstColon b := by
  induction a with
  | nil => rfl
  | cons c rest ih =>
    by_cases hc : c = ':'
    · simp [afterFirstColon, hc] at h
    · have h2 : afterFirstColon rest = none := by
        simpa [afterFirstColon, hc] using h
      simp only [List.cons_append, afterFirstColon]
      rw [if_neg hc]
      exact ih h2

theorem afterFirstColon_append_some (a b r : List Char)
    (h : afterFirstColon a = some r) :
    afterFirstColon (a ++ b) = some (r ++ b) := by
  induction a generalizing r with
  | nil => exact Option.noConfusion h
  | cons c rest ih =>
    by_cases hc : c = ':'
    · have hr : rest = r := by
        simpa [afterFirstColon, hc] using h
      subst hr
      simp only [List.cons_append, afterFirstColon]
      rw [if_pos hc]
      rfl
    · have h2 : afterFirstColon rest = some r := by
        simpa [afterFirstColon, hc] using h
      simp only [List.cons_append, afterFirstColon]
      rw [if_neg hc]
      exact ih r h2

theorem afterFirstColon_eq_none (l : List Char) (h : ':' ∉ l) :
    afterFirstColon l = none := by
  induction l with
  | nil => rfl
  | cons c rest ih =>
    have hc : ¬ c = ':' := fun hcc => h (hcc ▸ List.mem_cons_self c rest)
    simp only [afterFirstColon, hc, if_false]
    exact ih fun hm => h (List.mem_cons_of_mem c hm)

theorem pyStripList_cons_space (l : List Char) :
    pyStripList (' ' :: l) = pyStripList l := by
  simp [pyStripList, List.dropWhile_cons, isPySpace]

/-- Stripping a single leading space from a strip-invariant string gives the
string back. -/
theorem pyStrip_space_clean (s : String) (h : pyStrip s = s) :
    pyStrip ⟨' ' :: s.data⟩ = s := by
  unfold pyStrip at *
  show (⟨pyStripList (' ' :: s.data)⟩ : String) = s
  rw [pyStripList_cons_space]
  exact h

/-- On a line of the form lit ++ x where the literal ends with a colon and a
single space, `split(":", 1)[1].strip()` recovers a strip-invariant x. -/
theorem stripTail_lit (lit x : String)
    (h : afterFirstColon lit.data = some [' '])
    (hx : pyStrip x = x) :
    pyStrip (pySplitColonTail (lit ++ x)) = x := by
  unfold pySplitColonTail
  rw [String.data_append, afterFirstColon_append_some _ _ _ h]
  show pyStrip ⟨[' '] ++ x.data⟩ = x
  have : ([' '] ++ x.data) = ' ' :: x.data := rfl
  rw [this]
  exact pyStrip_space_clean x hx

theorem pyInL_append_left (n pre h : List Char) (hh : pyInL n h = true) :
    pyInL n (pre ++ h) = true := by
  induction pre with
  | nil => exact hh
  | cons c rest ih =>
    simp only [List.cons_append, pyInL, Bool.or_eq_true]
    exact Or.inr ih

theorem pyInL_of_isPrefixOf (n h : List Char) (hp : n.isPrefixOf h = true) :
    pyInL n h = true := by
  cases h with
  | nil =>
    cases n with
    | nil => rfl
    | cons c cs => simp [List.isPrefixOf] at hp
  | cons c cs =>
    simp only [pyInL, Bool.or_eq_true]
    exact Or.inl hp

theorem exists_append_of_isPrefixOf (p l : List Char)
    (h : p.isPrefixOf l = true) : ∃ t, l = p ++ t := by
  induction p generalizing l with
  | nil => exact ⟨l, rfl⟩
  | cons c cs ih =>
    cases l with
    | nil => simp [List.isPrefixOf] at h
    | cons d ds =>
      simp only [List.isPrefixOf, Bool.and_eq_true] at h
      obtain ⟨t, ht⟩ := ih ds h.2
      exact ⟨t, by rw [List.cons_append, ← ht, eq_of_beq h.1]⟩

/-- cleanup.py lines 37-44: the record `parse_session_files` accumulates. -/
structure ParsedResources where
  cvmInstanceId : Option String := none
  mysqlInstanceId : Option String := none
  vpcId : Option String := none
  subnets : List String := []
  securityGroupIds : List String := []
  region : String := "ap-guangzhou"
deriving DecidableEq

/-- cleanup.py lines 47-56: the per-line parse of 02_cvm_info.txt. -/
def parseCvmLines : ParsedResources → List String → ParsedResources
  | acc, [] => acc
  | acc, line :: rest =>
    if pyStartswith line "Instance ID:" then
      parseCvmLines
        { acc with cvmInstanceId := some (pyStrip (pySplitColonTail line)) } rest
    else if pyStartswith line "Security Group:" then
      let sg := pyStrip (pySplitColonTail line)
      if sg ≠ "" then
        parseCvmLines
          { acc with securityGroupIds := acc.securityGroupIds ++ [sg] } rest
      else parseCvmLines acc rest
    else parseCvmLines acc rest

/-- cleanup.py lines 59-68: the per-line parse of 03_mysql_info.txt (the
security-group id is kept only when not already recorded). -/
def parseMysqlLines : ParsedResources → List String → ParsedResources
  | acc, [] => acc
  | acc, line :: rest =>
    if pyStartswith line "Instance ID:" then
      parseMysqlLines
        { acc with mysqlInstanceId := some (pyStrip (pySplitColonTail line)) } rest
    else if pyStartswith line "Security Group:" then
      let sg := pyStrip (pySplitColonTail line)
      if sg ≠ "" ∧ sg ∉ acc.securityGroupIds then
        parseMysqlLines
          { acc with securityGroupIds := acc.securityGroupIds ++ [sg] } rest
      else parseMysqlLines acc rest
    else parseMysqlLines acc rest

/-- cleanup.py lines 71-84: the per-line parse of 01_network_info.txt: the
VPC line, then any line with a colon whose lowercase text contains the word
subnet and whose colon tail strips to a subnet- prefixed id. -/
def parseNetworkLines : ParsedResources → List String → ParsedResources
  | acc, [] => acc
  | acc, line :: rest =>
    if pyStartswith line "VPC ID:" then
      parseNetworkLines
        { acc with vpcId := some (pyStrip (pySplitColonTail line)) } rest
    else if pyContainsColon line &&
        pyInL "subnet".data (line.data.map Char.toLower) then
      let subnetId := pyStrip (pySplitColonTail line)
      if pyStartswith subnetId "subnet-" then
        parseNetworkLines { acc with subnets := acc.subnets ++ [subnetId] } rest
      else parseNetworkLines acc rest
    else parseNetworkLines acc rest

/-- cleanup.py lines 87-92: the per-line parse of 00_specification_info.txt. -/
def parseSpecLines : ParsedResources → List String → ParsedResources
  | acc, [] => acc
  | acc, line :: rest =>
    if pyStartswith line "Region:" then
      parseSpecLines { acc with region := pyStrip (pySplitColonTail line) } rest
    else parseSpecLines acc rest

/-- cleanup.py lines 35-94, `parse_session_files`: parse the four stage files
when present, in the fixed order cvm, mysql, network, specification. -/
def parseSessionFiles (cvmFile mysqlFile networkFile specFile : Option (List String)) :
    ParsedResources :=
  let r0 : ParsedResources := {}
  let r1 := match cvmFile with
    | some ls => parseCvmLines r0 ls
    | none => r0
  let r2 := match mysqlFile with
    | some ls => parseMysqlLines r1 ls
    | none => r1
  let r3 := match networkFile with
    | some ls => parseNetworkLines r2 ls
    | none => r2
  match specFile with
  | some ls => parseSpecLines r3 ls
  | none => r3

/-- The 70-character separator `_save_session_info` writes. -/
def sep70 : String :=
  ⟨List.replicate 70 '='⟩

/-- tencent.py lines 211-219, `_save_session_info`: the lines of a stage file
as Python file iteration yields them (each info string ends with a newline
and one extra newline is written, giving the final empty line). -/
def stageFileIterLines (ts stage : String) (info : List String) : List String :=
  ("Stage: " ++ stage) :: ("Timestamp: " ++ ts) :: sep70 :: (info ++ [""])

/-- The same stage file as the cleanup tool sees it when it reads the whole
text and splits on newlines (one more empty string after the final
newline). -/
def stageFileSplitLines (ts stage : String) (info : List String) : List String :=
  stageFileIterLines ts stage info ++ [""]

theorem parseCvmLines_skip (acc : ParsedResources) (line : String)
    (rest : List String)
    (h1 : pyStartswith line "Instance ID:" = false)
    (h2 : pyStartswith line "Security Group:" = false) :
    parseCvmLines acc (line :: rest) = parseCvmLines acc rest := by
  simp [parseCvmLines, h1, h2]

theorem parseCvmLines_instance (acc : ParsedResources) (line : String)
    (rest : List String) (x : String)
    (h1 : pyStartswith line "Instance ID:" = true)
    (hx : pyStrip (pySplitColonTail line) = x) :
    parseCvmLines acc (line :: rest) =
      parseCvmLines { acc with cvmInstanceId := some x } rest := by
  simp [parseCvmLines, h1, hx]

theorem parseCvmLines_sg (acc : ParsedResources) (line : String)
    (rest : List String) (x : String)
    (h1 : pyStartswith line "Instance ID:" = false)
    (h2 : pyStartswith line "Security Group:" = true)
    (hx : pyStrip (pySplitColonTail line) = x) (hx0 : x ≠ "") :
    parseCvmLines acc (line :: rest) =
      parseCvmLines
        { acc with securityGroupIds := acc.securityGroupIds ++ [x] } rest := by
  simp [parseCvmLines, h1, h2, hx, hx0]

theorem parseMysqlLines_skip (acc : ParsedResources) (line : String)
    (rest : List String)
    (h1 : pyStartswith line "Instance ID:" = false)
    (h2 : pyStartswith line "Security Group:" = false) :
    parseMysqlLines acc (line :: rest) = parseMysqlLines acc rest := by
  simp [parseMysqlLines, h1, h2]

theorem parseMysqlLines_instance (acc : ParsedResources) (line : String)
    (rest : List String) (x : String)
    (h1 : pyStartswith line "Instance ID:" = true)
    (hx : pyStrip (pySplitColonTail line) = x) :
    parseMysqlLines acc (line :: rest) =
      parseMysqlLines { acc with mysqlInstanceId := some x } rest := by
  simp [parseMysqlLines, h1, hx]

theorem parseMysqlLines_sg (acc : ParsedResources) (line : String)
    (rest : List String) (x : String)
    (h1 : pyStartswith line "Instance ID:" = false)
    (h2 : pyStartswith line "Security Group:" = true)
    (hx : pyStrip (pySplitColonTail line) = x) (hx0 : x ≠ "")
    (hmem : x ∉ acc.securityGroupIds) :
    parseMysqlLines acc (line :: rest) =
      parseMysqlLines
        { acc with securityGroupIds := acc.securityGroupIds ++ [x] } rest := by
  simp [parseMysqlLines, h1, h2, hx, hx0, hmem]

theorem parseNetworkLines_skip (acc : ParsedResources) (line : String)
    (rest : List String)
    (h1 : pyStartswith line "VPC ID:" = false)
    (h2 : (pyContainsColon line &&
      pyInL "subnet".data (line.data.map Char.toLower)) = false) :
    parseNetworkLines acc (line :: rest) = parseNetworkLines acc rest := by
  simp only [parseNetworkLines, h1, h2]
  simp

theorem parseNetworkLines_vpc (acc : ParsedResources) (line : String)
    (rest : List String) (x : String)
    (h1 : pyStartswith line "VPC ID:" = true)
    (hx : pyStrip (pySplitColonTail line) = x) :
    parseNetworkLines acc (line :: rest) =
      parseNetworkLines { acc with vpcId := some x } rest := by
  simp [parseNetworkLines, h1, hx]

theorem parseNetworkLines_subnet (acc : ParsedResources) (line : String)
    (rest : List String) (x : String)
    (h1 : pyStartswith line "VPC ID:" = false)
    (h2 : (pyContainsColon line &&
      pyInL "subnet".data (line.data.map Char.toLower)) = true)
    (hx : pyStrip (pySplitColonTail line) = x)
    (hpre : pyStartswith x "subnet-" = true) :
    parseNetworkLines acc (line :: rest) =
      parseNetworkLines { acc with subnets := acc.subnets ++ [x] } rest := by
  simp [parseNetworkLines, h1, h2, hx, hpre]

theorem parseNetworkLines_subnet_skip (acc : ParsedResources) (line : String)
    (rest : List String)
    (h1 : pyStartswith line "VPC ID:" = false)
    (h2 : (pyContainsColon line &&
      pyInL "subnet".data (line.data.map Char.toLower)) = true)
    (hpre : pyStartswith (pyStrip (pySplitColonTail line)) "subnet-" = false) :
    parseNetworkLines acc (line :: rest) = parseNetworkLines acc rest := by
  simp [parseNetworkLines, h1, h2, hpre]

theorem parseSpecLines_region (acc : ParsedResources) (line : String)
    (rest : List String) (x : String)
    (h1 : pyStartswith line "Region:" = true)
    (hx : pyStrip (pySplitColonTail line) = x) :
    parseSpecLines acc (line :: rest) =
      parseSpecLines { acc with region := x } rest := by
  simp [parseSpecLines, h1, hx]

theorem parseSpecLines_all_skip (acc : ParsedResources) (ls : List String)
    (h : ∀ l ∈ ls, pyStartswith l "Region:" = false) :
    parseSpecLines acc ls = acc := by
  induction ls with
  | nil => rfl
  | cons l rest ih =>
    have h1 : pyStartswith l "Region:" = false := h l (List.mem_cons_self _ _)
    simp only [parseSpecLines, h1]
    simp only [Bool.false_eq_true, if_false]
    exact ih fun l2 hl2 => h l2 (List.mem_cons_of_mem _ hl2)

/-- The colon tail of a per-zone subnet line of the network snapshot. -/
theorem subnetLine_afc (z s : String) (hz : ':' ∉ z.data) :
    afterFirstColon (("  " ++ (z ++ (": " ++ s))).data) = some (' ' :: s.data) := by
  have hdata : ("  " ++ (z ++ (": " ++ s))).data =
      "  ".data ++ (z.data ++ (": ".data ++ s.data)) := by
    simp [String.data_append]
  rw [hdata]
  rw [afterFirstColon_append_none _ _ (by decide)]
  rw [afterFirstColon_append_none _ _ (afterFirstColon_eq_none _ hz)]
  rw [afterFirstColon_append_some _ _ [' '] (by decide)]
  rfl

/-- A per-zone subnet line of the network snapshot contains a colon. -/
theorem subnetLine_hasColon (z s : String) (hz : ':' ∉ z.data) :
    pyContainsColon ("  " ++ (z ++ (": " ++ s))) = true := by
  unfold pyContainsColon
  rw [subnetLine_afc z s hz]
  rfl

/-- Splitting and stripping a per-zone subnet line recovers the subnet id. -/
theorem subnetLine_tail (z s : String) (hz : ':' ∉ z.data)
    (hs : pyStrip s = s) :
    pyStrip (pySplitColonTail ("  " ++ (z ++ (": " ++ s)))) = s := by
  unfold pySplitColonTail
  rw [subnetLine_afc z s hz]
  show pyStrip ⟨' ' :: s.data⟩ = s
  exact pyStrip_space_clean s hs

/-- The lowercase text of a per-zone subnet line contains the word subnet,
because the subnet id itself starts with subnet-. -/
theorem subnetLine_lower (z s : String)
    (hs : pyStartswith s "subnet-" = true) :
    pyInL "subnet".data (("  " ++ (z ++ (": " ++ s))).data.map Char.toLower) = true := by
  obtain ⟨t, ht⟩ := exists_append_of_isPrefixOf "subnet-".data s.data hs
  have hdata : ("  " ++ (z ++ (": " ++ s))).data =
      "  ".data ++ (z.data ++ (": ".data ++ s.data)) := by
    simp [String.data_append]
  rw [hdata, List.map_append, List.map_append, List.map_append]
  apply pyInL_append_left
  apply pyInL_append_left
  apply pyInL_append_left
  rw [ht, List.map_append]
  have hlow : "subnet-".data.map Char.toLower = "subnet-".data := by decide
  rw [hlow]
  exact pyInL_of_isPrefixOf _ _ (isPrefixOf_append_left _ _ _ (by decide))

/-- Parsing the written 02_cvm file recovers the instance id and appends the
compute security-group id. -/
theorem parseCvm_file (acc : ParsedResources)
    (ts cvmId pubIp privIp keyPath cvmSg : String)
    (hcvm : pyStrip cvmId = cvmId) (hcs : pyStrip cvmSg = cvmSg)
    (hcs0 : cvmSg ≠ "") :
    parseCvmLines acc
      (stageFileIterLines ts "02_cvm"
        (cvmInfoLines cvmId (some pubIp) (some privIp) keyPath (some cvmSg))) =
    { acc with
      cvmInstanceId := some cvmId
      securityGroupIds := acc.securityGroupIds ++ [cvmSg] } := by
  simp only [stageFileIterLines, cvmInfoLines, pyShowOpt, List.cons_append,
    List.nil_append]
  rw [parseCvmLines_skip _ ("Stage: " ++ "02_cvm") _ (by decide) (by decide)]
  rw [parseCvmLines_skip _ ("Timestamp: " ++ ts) _
    (pyStartswith_append_false "Timestamp: " ts "Instance ID:" (by decide) (by decide))
    (pyStartswith_append_false "Timestamp: " ts "Security Group:" (by decide) (by decide))]
  rw [parseCvmLines_skip _ sep70 _ (by decide) (by decide)]
  rw [parseCvmLines_instance _ ("Instance ID: " ++ cvmId) _ cvmId
    (pyStartswith_append_true "Instance ID: " cvmId "Instance ID:" (by decide))
    (stripTail_lit "Instance ID: " cvmId (by decide) hcvm)]
  rw [parseCvmLines_skip _ ("Public IP: " ++ pubIp) _
    (pyStartswith_append_false "Public IP: " pubIp "Instance ID:" (by decide) (by decide))
    (pyStartswith_append_false "Public IP: " pubIp "Security Group:" (by decide) (by decide))]
  rw [parseCvmLines_skip _ ("Private IP: " ++ privIp) _
    (pyStartswith_append_false "Private IP: " privIp "Instance ID:" (by decide) (by decide))
    (pyStartswith_append_false "Private IP: " privIp "Security Group:" (by decide) (by decide))]
  rw [parseCvmLines_skip _ ("SSH Key: " ++ keyPath) _
    (pyStartswith_append_false "SSH Key: " keyPath "Instance ID:" (by decide) (by decide))
    (pyStartswith_append_false "SSH Key: " keyPath "Security Group:" (by decide) (by decide))]
  rw [parseCvmLines_skip _
    ("SSH Command: ssh -i " ++ (keyPath ++ (" ubuntu@" ++ pubIp))) _
    (pyStartswith_append_false "SSH Command: ssh -i " (keyPath ++ (" ubuntu@" ++ pubIp))
      "Instance ID:" (by decide) (by decide))
    (pyStartswith_append_false "SSH Command: ssh -i " (keyPath ++ (" ubuntu@" ++ pubIp))
      "Security Group:" (by decide) (by decide))]
  rw [parseCvmLines_sg _ ("Security Group: " ++ cvmSg) _ cvmSg
    (pyStartswith_append_false "Security Group: " cvmSg "Instance ID:" (by decide) (by decide))
    (pyStartswith_append_true "Security Group: " cvmSg "Security Group:" (by decide))
    (stripTail_lit "Security Group: " cvmSg (by decide) hcs) hcs0]
  rw [parseCvmLines_skip _ "" _ (by decide) (by decide)]
  rfl

/-- Parsing the written 03_mysql file recovers the database instance id and
appends the (new) database security-group id. -/
theorem parseMysql_file (acc : ParsedResources)
    (ts mysqlId host pw mysqlSg : String) (port : Int)
    (hmy : pyStrip mysqlId = mysqlId) (hms : pyStrip mysqlSg = mysqlSg)
    (hms0 : mysqlSg ≠ "") (hmem : mysqlSg ∉ acc.securityGroupIds) :
    parseMysqlLines acc
      (stageFileIterLines ts "03_mysql"
        (mysqlInfoLines mysqlId host port pw (some mysqlSg))) =
    { acc with
      mysqlInstanceId := some mysqlId
      securityGroupIds := acc.securityGroupIds ++ [mysqlSg] } := by
  simp only [stageFileIterLines, mysqlInfoLines, pyShowOpt, List.cons_append,
    List.nil_append]
  rw [parseMysqlLines_skip _ ("Stage: " ++ "03_mysql") _ (by decide) (by decide)]
  rw [parseMysqlLines_skip _ ("Timestamp: " ++ ts) _
    (pyStartswith_append_false "Timestamp: " ts "Instance ID:" (by decide) (by decide))
    (pyStartswith_append_false "Timestamp: " ts "Security Group:" (by decide) (by decide))]
  rw [parseMysqlLines_skip _ sep70 _ (by decide) (by decide)]
  rw [parseMysqlLines_instance _ ("Instance ID: " ++ mysqlId) _ mysqlId
    (pyStartswith_append_true "Instance ID: " mysqlId "Instance ID:" (by decide))
    (stripTail_lit "Instance ID: " mysqlId (by decide) hmy)]
  rw [parseMysqlLines_skip _ ("Host: " ++ host) _
    (pyStartswith_append_false "Host: " host "Instance ID:" (by decide) (by decide))
    (pyStartswith_append_false "Host: " host "Security Group:" (by decide) (by decide))]
  rw [parseMysqlLines_skip _ ("Port: " ++ toString port) _
    (pyStartswith_append_false "Port: " (toString port) "Instance ID:" (by decide) (by decide))
    (pyStartswith_append_false "Port: " (toString port) "Security Group:" (by decide) (by decide))]
  rw [parseMysqlLines_skip _ "Username: root" _ (by decide) (by decide)]
  rw [parseMysqlLines_skip _ ("Password: " ++ pw) _
    (pyStartswith_append_false "Password: " pw "Instance ID:" (by decide) (by decide))
    (pyStartswith_append_false "Password: " pw "Security Group:" (by decide) (by decide))]
  rw [parseMysqlLines_skip _
    ("Connection: mysql -h " ++ (host ++ (" -P " ++ (toString port ++ " -u root -p")))) _
    (pyStartswith_append_false "Connection: mysql -h "
      (host ++ (" -P " ++ (toString port ++ " -u root -p")))
      "Instance ID:" (by decide) (by decide))
    (pyStartswith_append_false "Connection: mysql -h "
      (host ++ (" -P " ++ (toString port ++ " -u root -p")))
      "Security Group:" (by decide) (by decide))]
  rw [parseMysqlLines_sg { acc with mysqlInstanceId := some mysqlId }
    ("Security Group: " ++ mysqlSg) _ mysqlSg
    (pyStartswith_append_false "Security Group: " mysqlSg "Instance ID:" (by decide) (by decide))
    (pyStartswith_append_true "Security Group: " mysqlSg "Security Group:" (by decide))
    (stripTail_lit "Security Group: " mysqlSg (by decide) hms) hms0 hmem]
  rw [parseMysqlLines_skip _ "" _ (by decide) (by decide)]
  rfl

/-- Parsing the per-zone subnet lines appends exactly the written subnet ids
in order. -/
theorem parseNetwork_zone_lines (acc : ParsedResources)
    (subnets : List (String × String)) (tail : List String)
    (h : ∀ p ∈ subnets,
      ':' ∉ p.1.data ∧ pyStrip p.2 = p.2 ∧ pyStartswith p.2 "subnet-" = true) :
    parseNetworkLines acc
      ((subnets.map fun p => "  " ++ (p.1 ++ (": " ++ p.2))) ++ tail) =
    parseNetworkLines
      { acc with subnets := acc.subnets ++ subnets.map Prod.snd } tail := by
  induction subnets generalizing acc with
  | nil => simp
  | cons p ps ih =>
    obtain ⟨hz, hstrip, hpre⟩ := h p (List.mem_cons_self _ _)
    simp only [List.map_cons, List.cons_append]
    rw [parseNetworkLines_subnet _ ("  " ++ (p.1 ++ (": " ++ p.2))) _ p.2
      (pyStartswith_append_false "  " (p.1 ++ (": " ++ p.2)) "VPC ID:"
        (by decide) (by decide))
      (by rw [subnetLine_hasColon p.1 p.2 hz, subnetLine_lower p.1 p.2 hpre]; rfl)
      (subnetLine_tail p.1 p.2 hz hstrip) hpre]
    rw [ih _ (fun q hq => h q (List.mem_cons_of_mem _ hq))]
    congr 1
    simp

/-- Parsing the written 01_network file recovers the VPC id and all the
subnet ids, in order. -/
theorem parseNetwork_file (acc : ParsedResources) (ts vpcId : String)
    (subnets : List (String × String))
    (hts : pyInL "subnet".data (("Timestamp: " ++ ts).data.map Char.toLower) = false)
    (hvpc : pyStrip vpcId = vpcId)
    (hsub : ∀ p ∈ subnets,
      ':' ∉ p.1.data ∧ pyStrip p.2 = p.2 ∧ pyStartswith p.2 "subnet-" = true) :
    parseNetworkLines acc
      (stageFileSplitLines ts "01_network" (networkInfoLines vpcId subnets)) =
    { acc with
      vpcId := some vpcId
      subnets := acc.subnets ++ subnets.map Prod.snd } := by
  simp only [stageFileSplitLines, stageFileIterLines, networkInfoLines,
    List.cons_append, List.nil_append, List.append_assoc]
  rw [parseNetworkLines_skip _ ("Stage: " ++ "01_network") _ (by decide) (by decide)]
  rw [parseNetworkLines_skip _ ("Timestamp: " ++ ts) _
    (pyStartswith_append_false "Timestamp: " ts "VPC ID:" (by decide) (by decide))
    (by rw [hts, Bool.and_false])]
  rw [parseNetworkLines_skip _ sep70 _ (by decide) (by decide)]
  rw [parseNetworkLines_vpc _ ("VPC ID: " ++ vpcId) _ vpcId
    (pyStartswith_append_true "VPC ID: " vpcId "VPC ID:" (by decide))
    (stripTail_lit "VPC ID: " vpcId (by decide) hvpc)]
  rw [parseNetworkLines_subnet_skip _ "Subnets:" _ (by decide) (by decide) (by decide)]
  rw [parseNetwork_zone_lines _ subnets _ hsub]
  rw [parseNetworkLines_skip _ "" _ (by decide) (by decide)]
  rw [parseNetworkLines_skip _ "" _ (by decide) (by decide)]
  rfl

theorem parseSpecLines_skip (acc : ParsedResources) (line : String)
    (rest : List String) (h : pyStartswith line "Region:" = false) :
    parseSpecLines acc (line :: rest) = parseSpecLines acc rest := by
  simp [parseSpecLines, h]

/-- Parsing the written 00_specification file recovers the region. -/
theorem parseSpec_file (acc : ParsedResources) (ts : String)
    (spec : ResourceSpec) (hreg : pyStrip spec.region = spec.region) :
    parseSpecLines acc
      (stageFileIterLines ts "00_specification" (specInfoLines spec)) =
    { acc with region := spec.region } := by
  have hall : ∀ l ∈ specTailLines spec ++ [""],
      pyStartswith l "Region:" = false := by
    intro l hl
    rw [List.mem_append] at hl
    rcases hl with hl | hl
    · simp only [specTailLines, List.mem_cons, List.not_mem_nil, or_false] at hl
      rcases hl with rfl | rfl | rfl | rfl | rfl | rfl | rfl | rfl | rfl | rfl | rfl
      · decide
      · decide
      · cases spec.cvm with
        | none => decide
        | some c => exact pyStartswith_append_false "  CPU: " _ "Region:" (by decide) (by decide)
      · cases spec.cvm with
        | none => decide
        | some c => exact pyStartswith_append_false "  Memory: " _ "Region:" (by decide) (by decide)
      · cases spec.cvm with
        | none => decide
        | some c => exact pyStartswith_append_false "  Disk: " _ "Region:" (by decide) (by decide)
      · cases spec.cvm with
        | none => decide
        | some c => exact pyStartswith_append_false "  GPU: " _ "Region:" (by decide) (by decide)
      · decide
      · decide
      · cases spec.mysql with
        | none => decide
        | some m => exact pyStartswith_append_false "  CPU: " _ "Region:" (by decide) (by decide)
      · cases spec.mysql with
        | none => decide
        | some m => exact pyStartswith_append_false "  Memory: " _ "Region:" (by decide) (by decide)
      · cases spec.mysql with
        | none => decide
        | some m => exact pyStartswith_append_false "  Storage: " _ "Region:" (by decide) (by decide)
    · simp only [List.mem_singleton] at hl
      subst hl
      decide
  simp only [stageFileIterLines, specInfoLines, List.cons_append, List.nil_append]
  rw [parseSpecLines_skip _ ("Stage: " ++ "00_specification") _ (by decide)]
  rw [parseSpecLines_skip _ ("Timestamp: " ++ ts) _
    (pyStartswith_append_false "Timestamp: " ts "Region:" (by decide) (by decide))]
  rw [parseSpecLines_skip _ sep70 _ (by decide)]
  rw [parseSpecLines_skip _ "Resource Specification:" _ (by decide)]
  rw [parseSpecLines_region _ ("Region: " ++ spec.region) _ spec.region
    (pyStartswith_append_true "Region: " spec.region "Region:" (by decide))
    (stripTail_lit "Region: " spec.region (by decide) hreg)]
  rw [parseSpecLines_all_skip _ (specTailLines spec ++ [""]) hall]

/-- C8: round trip between the session snapshot writer and the cleanup
tool's file parsing.  For a completed run whose stage files were written by
`_save_session_info` (specification, network, compute, database stages),
re-parsing the session files with `parse_session_files` recovers exactly the
compute instance id, database instance id, network id, subnet ids,
firewall-ruleset ids and region that the orchestrator recorded, provided the
recorded identifiers are session-file safe: newline-free and strip-invariant,
subnet ids carry their usual subnet- prefix, zone names contain no colon, the
two ruleset ids are distinct and non-empty, and the timestamp text does not
contain the word subnet. -/
theorem session_roundtrip
    (ts vpcId cvmId pubIp privIp keyPath cvmSg mysqlId host pw mysqlSg : String)
    (port : Int) (subnets : List (String × String)) (spec : ResourceSpec)
    (hts : pyInL "subnet".data (("Timestamp: " ++ ts).data.map Char.toLower) = false)
    (hreg : cleanStr spec.region) (hvpc : cleanStr vpcId)
    (hcvm : cleanStr cvmId) (hmyid : cleanStr mysqlId)
    (hcs : cleanStr cvmSg) (hms : cleanStr mysqlSg)
    (hcs0 : cvmSg ≠ "") (hms0 : mysqlSg ≠ "") (hdiff : mysqlSg ≠ cvmSg)
    (hsub : ∀ p ∈ subnets,
      ':' ∉ p.1.data ∧ cleanStr p.2 ∧ pyStartswith p.2 "subnet-" = true)
    (_hnl : '\n' ∉ ts.data ∧ '\n' ∉ pubIp.data ∧ '\n' ∉ privIp.data ∧
      '\n' ∉ keyPath.data ∧ '\n' ∉ host.data ∧ '\n' ∉ pw.data ∧
      ∀ p ∈ subnets, '\n' ∉ p.1.data) :
    parseSessionFiles
      (some (stageFileIterLines ts "02_cvm"
        (cvmInfoLines cvmId (some pubIp) (some privIp) keyPath (some cvmSg))))
      (some (stageFileIterLines ts "03_mysql"
        (mysqlInfoLines mysqlId host port pw (some mysqlSg))))
      (some (stageFileSplitLines ts "01_network" (networkInfoLines vpcId subnets)))
      (some (stageFileIterLines ts "00_specification" (specInfoLines spec))) =
    { cvmInstanceId := some cvmId
      mysqlInstanceId := some mysqlId
      vpcId := some vpcId
      subnets := subnets.map Prod.snd
      securityGroupIds := [cvmSg, mysqlSg]
      region := spec.region } := by
  have h1 : parseCvmLines {}
      (stageFileIterLines ts "02_cvm"
        (cvmInfoLines cvmId (some pubIp) (some privIp) keyPath (some cvmSg))) =
      ({ cvmInstanceId := some cvmId
         mysqlInstanceId := none
         vpcId := none
         subnets := []
         securityGroupIds := [cvmSg]
         region := "ap-guangzhou" } : ParsedResources) :=
    (parseCvm_file {} ts cvmId pubIp privIp keyPath cvmSg hcvm.2 hcs.2 hcs0).trans rfl
  have h2 : parseMysqlLines
      ({ cvmInstanceId := some cvmId
         mysqlInstanceId := none
         vpcId := none
         subnets := []
         securityGroupIds := [cvmSg]
         region := "ap-guangzhou" } : ParsedResources)
      (stageFileIterLines ts "03_mysql"
        (mysqlInfoLines mysqlId host port pw (some mysqlSg))) =
      ({ cvmInstanceId := some cvmId
         mysqlInstanceId := some mysqlId
         vpcId := none
         subnets := []
         securityGroupIds := [cvmSg, mysqlSg]
         region := "ap-guangzhou" } : ParsedResources) :=
    (parseMysql_file _ ts mysqlId host pw mysqlSg port hmyid.2 hms.2 hms0
      (by simp [hdiff])).trans rfl
  have h3 : parseNetworkLines
      ({ cvmInstanceId := some cvmId
         mysqlInstanceId := some mysqlId
         vpcId := none
         subnets := []
         securityGroupIds := [cvmSg, mysqlSg]
         region := "ap-guangzhou" } : ParsedResources)
      (stageFileSplitLines ts "01_network" (networkInfoLines vpcId subnets)) =
      ({ cvmInstanceId := some cvmId
         mysqlInstanceId := some mysqlId
         vpcId := some vpcId
         subnets := subnets.map Prod.snd
         securityGroupIds := [cvmSg, mysqlSg]
         region := "ap-guangzhou" } : ParsedResources) :=
    (parseNetwork_file _ ts vpcId subnets hts hvpc.2
      (fun p hp => ⟨(hsub p hp).1, (hsub p hp).2.1.2, (hsub p hp).2.2⟩)).trans rfl
  have h4 : parseSpecLines
      ({ cvmInstanceId := some cvmId
         mysqlInstanceId := some mysqlId
         vpcId := some vpcId
         subnets := subnets.map Prod.snd
         securityGroupIds := [cvmSg, mysqlSg]
         region := "ap-guangzhou" } : ParsedResources)
      (stageFileIterLines ts "00_specification" (specInfoLines spec)) =
      ({ cvmInstanceId := some cvmId
         mysqlInstanceId := some mysqlId
         vpcId := some vpcId
         subnets := subnets.map Prod.snd
         securityGroupIds := [cvmSg, mysqlSg]
         region := spec.region } : ParsedResources) :=
    (parseSpec_file _ ts spec hreg.2).trans rfl
  show parseSpecLines
      (parseNetworkLines
        (parseMysqlLines
          (parseCvmLines {}
            (stageFileIterLines ts "02_cvm"
              (cvmInfoLines cvmId (some pubIp) (some privIp) keyPath (some cvmSg))))
          (stageFileIterLines ts "03_mysql"
            (mysqlInfoLines mysqlId host port pw (some mysqlSg))))
        (stageFileSplitLines ts "01_network" (networkInfoLines vpcId subnets)))
      (stageFileIterLines ts "00_specification" (specInfoLines spec)) = _
  rw [h1, h2, h3, h4]

/-- C8 witness at a fully concrete completed session. -/
theorem session_roundtrip_witness :
    parseSessionFiles
      (some (stageFileIterLines "2025-01-13 14:30:22" "02_cvm"
        (cvmInfoLines "ins-0probe7" (some "1.2.3.4") (some "10.0.1.5")
          "/root/.gitcloud/session/ssh_key" (some "sg-111"))))
      (some (stageFileIterLines "2025-01-13 14:30:22" "03_mysql"
        (mysqlInfoLines "cdb-777" "10.0.1.9" 3306 "GitCloud@abc" (some "sg-222"))))
      (some (stageFileSplitLines "2025-01-13 14:30:22" "01_network"
        (networkInfoLines "vpc-8f3k2j"
          [("ap-guangzhou-3", "subnet-aaa111"), ("ap-guangzhou-4", "subnet-bbb222")])))
      (some (stageFileIterLines "2025-01-13 14:30:22" "00_specification"
        (specInfoLines { cvm := some {}, mysql := some {}, region := "ap-guangzhou" }))) =
    { cvmInstanceId := some "ins-0probe7"
      mysqlInstanceId := some "cdb-777"
      vpcId := some "vpc-8f3k2j"
      subnets := [("ap-guangzhou-3", "subnet-aaa111"),
        ("ap-guangzhou-4", "subnet-bbb222")].map Prod.snd
      securityGroupIds := ["sg-111", "sg-222"]
      region := "ap-guangzhou" } :=
  session_roundtrip "2025-01-13 14:30:22" "vpc-8f3k2j" "ins-0probe7" "1.2.3.4"
    "10.0.1.5" "/root/.gitcloud/session/ssh_key" "sg-111" "cdb-777" "10.0.1.9"
    "GitCloud@abc" "sg-222" 3306
    [("ap-guangzhou-3", "subnet-aaa111"), ("ap-guangzhou-4", "subnet-bbb222")]
    { cvm := some {}, mysql := some {}, region := "ap-guangzhou" }
    (by decide) (by decide) (by decide) (by decide) (by decide) (by decide)
    (by decide) (by decide) (by decide) (by decide) (by decide) (by decide)

end GitCloud
